import Mathlib

/-!
# Verification of the RAG user-story backend

A shallow embedding, in Lean 4, of the parts of the Python backend
(`app/core/security.py`, `app/api/routes/*.py`, `app/services/*.py`,
`app/agents/user_story_agent.py`, `app/utils/text_processing.py`) that the
documented behavioural properties talk about, together with proofs or
refutations of those properties.

Conventions used throughout:

* Machine integers and timestamps are `Nat`; similarity scores and other
  floats that only ever get compared or averaged are `ℚ`.
* Python functions that may raise an `HTTPException` are modelled as
  `Except Nat α`, the `Nat` being the HTTP status code.
* Calls into external capabilities (the JWT library's signing, the LLM
  backends, the vector store) are modelled as oracle values passed in as
  arguments; an exception raised by such a call is an explicit constructor
  of the oracle's result type.
* Database tables are lists of records; SQLAlchemy's `filter(...).first()`
  is `List.find?` with the same predicate, and a relationship collection is
  a `filter` over the child table by foreign key.
-/

namespace RagSpec

/-! ## Security module — JWT issuance and verification

Embeds `create_access_token`, `create_refresh_token` and `verify_token`
from `app/core/security.py`.  The JWT library (`python-jose`) is an
external capability: signing is injective and verification of a token
signed with the process's own secret always succeeds, so an encoded token
is modelled as its claim set itself.  `jwt.decode` validates the `exp`
claim and raises `JWTError` once the expiry has passed; that check is the
`exp < now` test below. -/

/-- The claim set handed to the token issuers at the login call site:
`{"sub": user.username, "user_id": user.id, "role": user.role}`. -/
structure TokenData where
  sub : String
  user_id : Nat
  role : String
  deriving Repr, DecidableEq

/-- The payload of an encoded token: the caller's claims plus the `exp`
and `type` claims added by the issuer.  `role` is absent from refresh
tokens, hence `Option`. -/
structure Claims where
  sub : Option String
  user_id : Option Nat
  role : Option String
  exp : Nat
  token_kind : Option String
  deriving Repr, DecidableEq

/-- Default access-token lifetime: `ACCESS_TOKEN_EXPIRE_MINUTES = 30`,
in seconds. -/
def accessTokenLifetime : Nat := 30 * 60

/-- Default refresh-token lifetime: `REFRESH_TOKEN_EXPIRE_MINUTES`
(7 days), in seconds. -/
def refreshTokenLifetime : Nat := 7 * 24 * 60 * 60

/-- `create_access_token(data, expires_delta)`: copies the claims, sets
`exp` to now plus the caller-supplied delta (or the configured default)
and stamps `type = "access"`. -/
def create_access_token (data : TokenData) (now : Nat) (expires_delta : Option Nat) : Claims :=
  { sub := some data.sub
    user_id := some data.user_id
    role := some data.role
    exp := now + expires_delta.getD accessTokenLifetime
    token_kind := some "access" }

/-- `create_refresh_token(data, expires_delta)`: the login call site passes
only `sub` and `user_id`; the issuer stamps `type = "refresh"`. -/
def create_refresh_token (sub : String) (uid : Nat) (now : Nat)
    (expires_delta : Option Nat) : Claims :=
  { sub := some sub
    user_id := some uid
    role := none
    exp := now + expires_delta.getD refreshTokenLifetime
    token_kind := some "refresh" }

/-- `jwt.decode` as used by `verify_token`: signature checking always
succeeds for a token the process itself issued; the library raises
`JWTError` when the `exp` claim is in the past. -/
def jwtDecode (token : Claims) (now : Nat) : Option Claims :=
  if token.exp < now then none else some token

/-- `verify_token(token, token_type)`: decode, then require the embedded
`type` claim to equal the expected type and `sub` to be present; any
failure yields `None` instead of raising past the boundary. -/
def verify_token (token : Claims) (token_type : String) (now : Nat) : Option Claims :=
  match jwtDecode token now with
  | none => none
  | some payload =>
    if payload.token_kind ≠ some token_type then none
    else
      match payload.sub with
      | none => none
      | some _ => some payload

/-! ## Security module — current-user resolution and the token blacklist

Embeds `get_current_user`, `get_current_active_user`, `logout_user`,
`TokenBlacklist` and `get_current_user_with_blacklist_check` from
`app/core/security.py`, and the `/auth/logout` route from
`app/api/routes/auth.py`.  Every protected route in the repository takes
`Depends(get_current_active_user)`; none takes
`Depends(get_current_user_with_blacklist_check)`. -/

/-- The columns of the `users` table consulted by authentication. -/
structure UserRec where
  id : Nat
  username : String
  role : String
  is_active : Bool
  deriving Repr, DecidableEq

/-- The columns of the `user_sessions` table touched by login/logout. -/
structure SessionRec where
  id : Nat
  user_id : Nat
  is_active : Bool
  deriving Repr, DecidableEq

/-- Process state seen by the auth routes: the relational tables plus the
process-wide in-memory `TokenBlacklist` set. -/
structure AuthState where
  users : List UserRec
  sessions : List SessionRec
  blacklist : List Claims
  deriving Repr, DecidableEq

/-- `get_current_user`: verify the bearer token as an access token,
extract `sub`, load the user by username; any failure is 401. -/
def get_current_user (users : List UserRec) (token : Claims) (now : Nat) :
    Except Nat UserRec :=
  match verify_token token "access" now with
  | none => .error 401
  | some payload =>
    match payload.sub with
    | none => .error 401
    | some username =>
      match users.find? (fun u => u.username == username) with
      | none => .error 401
      | some u => .ok u

/-- `get_current_active_user`: the dependency used by every protected
route; rejects an inactive user with 400. -/
def get_current_active_user (users : List UserRec) (token : Claims) (now : Nat) :
    Except Nat UserRec :=
  match get_current_user users token now with
  | .error c => .error c
  | .ok u => if u.is_active then .ok u else .error 400

/-- `TokenBlacklist.is_blacklisted`. -/
def is_blacklisted (st : AuthState) (token : Claims) : Bool :=
  st.blacklist.contains token

/-- `get_current_user_with_blacklist_check`: rejects a blacklisted token
with 401 ("Token has been revoked") before resolving the user.  Defined in
`app/core/security.py` but not referenced by any route. -/
def get_current_user_with_blacklist_check (st : AuthState) (token : Claims)
    (now : Nat) : Except Nat UserRec :=
  if is_blacklisted st token then .error 401
  else get_current_user st.users token now

/-- The `/auth/logout` route: authenticates the caller, adds the presented
token to the blacklist (`logout_user`), and sets `is_active = False` on
every active `UserSession` row of the caller. -/
def logout_route (st : AuthState) (token : Claims) (now : Nat) :
    Except Nat AuthState :=
  match get_current_active_user st.users token now with
  | .error c => .error c
  | .ok u =>
    .ok { st with
          blacklist := token :: st.blacklist
          sessions := st.sessions.map (fun s =>
            if s.user_id == u.id && s.is_active then { s with is_active := false } else s) }

/-- A representative protected endpoint (`GET /auth/me` and every other
bearer-authenticated route): its authentication is exactly the
`get_current_active_user` dependency. -/
def protected_route_auth (st : AuthState) (token : Claims) (now : Nat) :
    Except Nat UserRec :=
  get_current_active_user st.users token now

/-- Concrete scenario for the logout property: one active user `alice`
with one active session, an access token just issued to her, and an empty
blacklist. -/
def aliceUser : UserRec := { id := 1, username := "alice", role := "user", is_active := true }

/-- Alice's token as issued at login time 0 with the default lifetime. -/
def aliceToken : Claims := create_access_token ⟨"alice", 1, "user"⟩ 0 none

/-- The process state right after Alice's login. -/
def aliceState : AuthState :=
  { users := [aliceUser]
    sessions := [{ id := 7, user_id := 1, is_active := true }]
    blacklist := [] }

/-! ## Documents and User-Stories routers — ownership checks

Embeds the access pattern shared by every per-resource route in
`app/api/routes/documents.py` and `app/api/routes/user_stories.py`:
`db.query(Child).join(Project).filter(Child.id == id,
Project.owner_id == current_user.id).first()`, raising 404
("... not found or access denied") when the query is empty, and the list
routes' scoping of results to the caller's own projects. -/

/-- The `projects` table columns consulted by access checks. -/
structure ProjRec where
  id : Nat
  owner_id : Nat
  deriving Repr, DecidableEq

/-- A `documents` row; `payload` stands for the data columns
(title, content, …) that `to_dict` would serialize. -/
structure DocRec where
  id : Nat
  project_id : Nat
  payload : String
  deriving Repr, DecidableEq

/-- A `user_stories` row as seen by the ownership checks. -/
structure StoryRowRec where
  id : Nat
  project_id : Nat
  payload : String
  deriving Repr, DecidableEq

/-- The tables consulted by the two routers. -/
structure RouterDB where
  projects : List ProjRec
  documents : List DocRec
  stories : List StoryRowRec
  deriving Repr, DecidableEq

/-- `db.query(Project).filter(Project.id == pid, Project.owner_id ==
current_user.id).first()` is non-empty. -/
def ownsProject (db : RouterDB) (uid pid : Nat) : Bool :=
  db.projects.any (fun p => p.id == pid && p.owner_id == uid)

/-- `GET /documents/{id}`: join to `projects`, filter by id and owner,
404 when empty, else the document's data. -/
def get_document (db : RouterDB) (uid did : Nat) : Except Nat DocRec :=
  match db.documents.find? (fun d => d.id == did && ownsProject db uid d.project_id) with
  | none => .error 404
  | some d => .ok d

/-- `PUT /documents/{id}`: same lookup; on success the payload is
replaced by the update and the updated row returned. -/
def update_document (db : RouterDB) (uid did : Nat) (newPayload : String) :
    Except Nat (RouterDB × DocRec) :=
  match db.documents.find? (fun d => d.id == did && ownsProject db uid d.project_id) with
  | none => .error 404
  | some d =>
    let d2 := { d with payload := newPayload }
    .ok ({ db with documents := db.documents.map (fun x => if x.id == d.id then d2 else x) }, d2)

/-- `DELETE /documents/{id}`: same lookup; on success the row is
removed. -/
def delete_document (db : RouterDB) (uid did : Nat) : Except Nat RouterDB :=
  match db.documents.find? (fun d => d.id == did && ownsProject db uid d.project_id) with
  | none => .error 404
  | some d => .ok { db with documents := db.documents.filter (fun x => x.id != d.id) }

/-- `GET /documents/` with an optional `project_id` filter: an explicit
filter on a project the caller does not own is 404; otherwise the result
is scoped to `Document.project_id ∈ {p.id | p.owner_id = caller}`. -/
def list_documents (db : RouterDB) (uid : Nat) (projectFilter : Option Nat) :
    Except Nat (List DocRec) :=
  match projectFilter with
  | some pid =>
    if ownsProject db uid pid then .ok (db.documents.filter (fun d => d.project_id == pid))
    else .error 404
  | none => .ok (db.documents.filter (fun d => ownsProject db uid d.project_id))

/-- `GET /user-stories/{id}` (the same join-filter-404 shape). -/
def get_user_story (db : RouterDB) (uid sid : Nat) : Except Nat StoryRowRec :=
  match db.stories.find? (fun s => s.id == sid && ownsProject db uid s.project_id) with
  | none => .error 404
  | some s => .ok s

/-- `PUT /user-stories/{id}` (ownership part only; versioning is modelled
separately below). -/
def update_user_story_access (db : RouterDB) (uid sid : Nat) (newPayload : String) :
    Except Nat (RouterDB × StoryRowRec) :=
  match db.stories.find? (fun s => s.id == sid && ownsProject db uid s.project_id) with
  | none => .error 404
  | some s =>
    let s2 := { s with payload := newPayload }
    .ok ({ db with stories := db.stories.map (fun x => if x.id == s.id then s2 else x) }, s2)

/-- `DELETE /user-stories/{id}`. -/
def delete_user_story (db : RouterDB) (uid sid : Nat) : Except Nat RouterDB :=
  match db.stories.find? (fun s => s.id == sid && ownsProject db uid s.project_id) with
  | none => .error 404
  | some s => .ok { db with stories := db.stories.filter (fun x => x.id != s.id) }

/-- `GET /user-stories/` with an optional `project_id` filter. -/
def list_user_stories (db : RouterDB) (uid : Nat) (projectFilter : Option Nat) :
    Except Nat (List StoryRowRec) :=
  match projectFilter with
  | some pid =>
    if ownsProject db uid pid then .ok (db.stories.filter (fun s => s.project_id == pid))
    else .error 404
  | none => .ok (db.stories.filter (fun s => ownsProject db uid s.project_id))

/-! ## User-story update and version snapshots

Embeds `PUT /user-stories/{story_id}` from
`app/api/routes/user_stories.py` together with the `UserStory` and
`UserStoryVersion` models from `app/models/user_story.py`.  A `UserStory`
row is a record of all the columns `to_dict` serializes, so the
`story_data` JSON snapshot is modelled as the record itself.  JSON blob
columns are key-value or id lists; timestamps are `Nat`. -/

/-- All columns of a `user_stories` row (the fields of
`UserStory.to_dict`). -/
structure StoryRec where
  id : Nat
  title : String
  persona : String
  functionality : String
  benefit : String
  story_text : String
  description : Option String
  acceptance_criteria : List String
  definition_of_done : List String
  status : String
  priority : String
  story_points : Option Nat
  business_value : Option Nat
  generated_by_ai : Bool
  generation_prompt : Option String
  generation_context : List (String × String)
  confidence_score : Option ℚ
  quality_score : Option ℚ
  clarity_score : Option ℚ
  completeness_score : Option ℚ
  testability_score : Option ℚ
  project_id : Nat
  created_by_user_id : Nat
  assigned_to_user_id : Option Nat
  jira_issue_key : Option String
  external_id : Option String
  external_url : Option String
  kg_story_id : Option String
  source_documents : List Nat
  source_requirements : List Nat
  tags : List String
  epic : Option String
  theme : Option String
  feature : Option String
  estimated_hours : Option ℚ
  complexity : Option String
  risk_level : Option String
  depends_on : List Nat
  blocks : List Nat
  created_at : Nat
  updated_at : Option Nat
  approved_at : Option Nat
  completed_at : Option Nat
  deriving Repr, DecidableEq

/-- The `UserStoryUpdate` request schema: every field optional; absent
fields (`exclude_unset`) are `none`.  (An explicit JSON `null` for an
optional column is modelled as absent; the update route treats the two
identically for the versioning property.) -/
structure StoryUpd where
  title : Option String
  persona : Option String
  functionality : Option String
  benefit : Option String
  description : Option String
  acceptance_criteria : Option (List String)
  definition_of_done : Option (List String)
  status : Option String
  priority : Option String
  story_points : Option Nat
  business_value : Option Nat
  tags : Option (List String)
  epic : Option String
  theme : Option String
  feature : Option String
  complexity : Option String
  risk_level : Option String
  estimated_hours : Option ℚ
  assigned_to_user_id : Option Nat
  change_description : Option String
  deriving Repr, DecidableEq

/-- The `setattr` loop over `update_data` (all set fields except
`change_description`), followed by `story.updated_at = utcnow()`. -/
def applyStoryUpdate (s : StoryRec) (u : StoryUpd) (now : Nat) : StoryRec :=
  { s with
    title := u.title.getD s.title
    persona := u.persona.getD s.persona
    functionality := u.functionality.getD s.functionality
    benefit := u.benefit.getD s.benefit
    description := match u.description with | some v => some v | none => s.description
    acceptance_criteria := u.acceptance_criteria.getD s.acceptance_criteria
    definition_of_done := u.definition_of_done.getD s.definition_of_done
    status := u.status.getD s.status
    priority := u.priority.getD s.priority
    story_points := match u.story_points with | some v => some v | none => s.story_points
    business_value := match u.business_value with | some v => some v | none => s.business_value
    tags := u.tags.getD s.tags
    epic := match u.epic with | some v => some v | none => s.epic
    theme := match u.theme with | some v => some v | none => s.theme
    feature := match u.feature with | some v => some v | none => s.feature
    complexity := match u.complexity with | some v => some v | none => s.complexity
    risk_level := match u.risk_level with | some v => some v | none => s.risk_level
    estimated_hours := match u.estimated_hours with | some v => some v | none => s.estimated_hours
    assigned_to_user_id :=
      match u.assigned_to_user_id with | some v => some v | none => s.assigned_to_user_id
    updated_at := some now }

/-- A `user_story_versions` row. -/
structure VersionRec where
  user_story_id : Nat
  version_number : Nat
  change_description : String
  changed_by_user_id : Nat
  story_data : StoryRec
  deriving Repr, DecidableEq

/-- The tables consulted by the update route; `story.versions` is the
relationship collection, i.e. the version rows with this story's id. -/
structure StoryDB where
  projects : List ProjRec
  stories : List StoryRec
  versions : List VersionRec
  deriving Repr, DecidableEq

/-- `PUT /user-stories/{story_id}`: ownership-checked lookup; then a
`UserStoryVersion` is created from the *pre-update* `story.to_dict()`
with `version_number = len(story.versions) + 1`, and only then the
partial update and `updated_at` stamp are applied. -/
def update_user_story (db : StoryDB) (uid sid : Nat) (u : StoryUpd) (now : Nat) :
    Except Nat (StoryDB × StoryRec) :=
  match db.stories.find? (fun s =>
      s.id == sid && db.projects.any (fun p => p.id == s.project_id && p.owner_id == uid)) with
  | none => .error 404
  | some s =>
    let v : VersionRec :=
      { user_story_id := s.id
        version_number := (db.versions.filter (fun w => w.user_story_id == s.id)).length + 1
        change_description := u.change_description.getD "Updated via API"
        changed_by_user_id := uid
        story_data := s }
    let s2 := applyStoryUpdate s u now
    .ok ({ db with
           versions := db.versions ++ [v]
           stories := db.stories.map (fun t => if t.id == s.id then s2 else t) }, s2)

/-! ## User-story generation agent

Embeds the six-stage LangGraph workflow of
`app/agents/user_story_agent.py`.  The graph is linear with unconditional
edges (`analyze_requirements → retrieve_context → extract_kg_entities →
generate_stories → quality_check → finalize_results`), so running it is
composing the six stage functions.  Every external call made by a stage
(LLM text generation plus JSON parsing of its output, RAG retrieval,
knowledge-graph extraction, the story-generation prompt) is an oracle
argument whose `raise` constructor is the call raising an exception; each
stage's `try/except` is the `match` on that constructor. -/

/-- Outcome of `llm_service.generate_text` followed by `json.loads` on
its `text`: the call may raise, or return text that parses as JSON, or
return text that does not. -/
inductive LLMTextOutcome (α : Type) where
  | raise (msg : String)
  | okJson (val : α)
  | okRaw (text : String)
  deriving Repr, DecidableEq

/-- A context chunk returned by `rag_service.retrieve_relevant_context`. -/
structure CtxDoc where
  content : String
  similarity_score : ℚ
  deriving Repr, DecidableEq

/-- Outcome of the RAG retrieval call made by `_retrieve_context`. -/
inductive RetrieveOutcome where
  | raise (msg : String)
  | ok (docs : List CtxDoc)
  deriving Repr, DecidableEq

/-- An entity returned by
`knowledge_graph_service.extract_entities_from_text`. -/
structure KGEnt where
  name : String
  type : String
  deriving Repr, DecidableEq

/-- Outcome of the knowledge-graph extraction call. -/
inductive KGOutcome where
  | raise (msg : String)
  | ok (entities : List KGEnt)
  deriving Repr, DecidableEq

/-- The `parsed_stories` payload of `llm_service.generate_user_story`:
its `user_stories` array (stories as opaque payloads) and the metadata
confidence. -/
structure StoriesData where
  user_stories : List String
  confidence_score : Option ℚ
  deriving Repr, DecidableEq

/-- The result dict of `llm_service.generate_user_story`. -/
structure GenResult where
  success : Bool
  parsed_stories : Option StoriesData
  parse_error : Option String
  deriving Repr, DecidableEq

/-- Outcome of the story-generation call made by `_generate_stories`. -/
inductive GenOutcome where
  | raise (msg : String)
  | ok (r : GenResult)
  deriving Repr, DecidableEq

/-- Outcome of the quality-check LLM call plus JSON parsing: on parsed
JSON the optional `story_evaluations` list is the per-story
`overall_score` values (each already defaulted to 5 by `.get`). -/
inductive QualityOutcome where
  | raise (msg : String)
  | okJson (evals : Option (List ℚ))
  | okRaw (text : String)
  deriving Repr, DecidableEq

/-- The parsed-or-raw `requirements_analysis` value: a JSON object
(modelled by its section names) or the raw text fallback. -/
inductive AnalysisVal where
  | parsed (sections : List String)
  | rawAnalysis (text : String)
  deriving Repr, DecidableEq

/-- The value of `state["quality_scores"]` in each reachable shape. -/
inductive QualityVal where
  | empty
  | zeroStories
  | parsedWithOverall (evals : List ℚ) (overall : ℚ)
  | parsedNoEvals
  | rawFeedback (text : String)
  deriving Repr, DecidableEq

/-- The shared mutable `UserStoryState` record (input fields, workflow
flags, result fields, and the metadata entries written by
`finalize_results`). -/
structure AgentState where
  requirements : String
  project_id : Nat
  user_id : Nat
  persona : Option String
  additional_context : Option String
  current_step : String
  analysis_complete : Bool
  context_retrieved : Bool
  stories_generated : Bool
  quality_checked : Bool
  requirements_analysis : Option AnalysisVal
  retrieved_context : List CtxDoc
  generated_stories : List String
  quality_scores : QualityVal
  knowledge_graph_entities : List KGEnt
  workflow_completed : Bool
  total_errors : Option Nat
  total_warnings : Option Nat
  steps_completed : List (String × Bool)
  messages : List String
  errors : List String
  warnings : List String
  deriving Repr, DecidableEq

/-- Stage 1, `_analyze_requirements`: an exception records an error and
leaves the analysis incomplete; unparseable JSON keeps the raw text with
a warning; the stage never aborts the workflow. -/
def analyze_requirements (o : LLMTextOutcome (List String)) (st : AgentState) : AgentState :=
  let st1 :=
    match o with
    | .raise e =>
      { st with errors := st.errors ++ ["Requirements analysis failed: " ++ e]
                analysis_complete := false }
    | .okJson sections =>
      { st with requirements_analysis := some (.parsed sections)
                analysis_complete := true
                messages := st.messages ++
                  ["Requirements analysis completed: " ++ toString sections.length ++
                    " sections analyzed"] }
    | .okRaw text =>
      { st with requirements_analysis := some (.rawAnalysis text)
                analysis_complete := true
                warnings := st.warnings ++ ["Requirements analysis returned non-JSON format"] }
  { st1 with current_step := "analyze_requirements" }

/-- Stage 2, `_retrieve_context`: a failure records an error and leaves
the context list empty. -/
def retrieve_context (o : RetrieveOutcome) (st : AgentState) : AgentState :=
  let st1 :=
    match o with
    | .raise e =>
      { st with errors := st.errors ++ ["Context retrieval failed: " ++ e]
                context_retrieved := false
                retrieved_context := [] }
    | .ok docs =>
      { st with retrieved_context := docs
                context_retrieved := true
                messages := st.messages ++
                  ["Retrieved " ++ toString docs.length ++ " relevant context documents"] }
  { st1 with current_step := "retrieve_context" }

/-- Stage 3, `_extract_kg_entities`: a failure records an error (the log
line is a warning but the message goes to `errors`) and leaves the
entity list empty. -/
def extract_kg_entities (o : KGOutcome) (st : AgentState) : AgentState :=
  let st1 :=
    match o with
    | .raise e =>
      { st with errors := st.errors ++ ["Knowledge graph entity extraction failed: " ++ e]
                knowledge_graph_entities := [] }
    | .ok entities =>
      { st with knowledge_graph_entities := entities
                messages := st.messages ++
                  ["Extracted " ++ toString entities.length ++ " knowledge graph entities"] }
  { st1 with current_step := "extract_kg_entities" }

/-- The composite context string assembled by `_generate_stories`: the
analysis section, the top 3 retrieved chunks truncated to 300 characters,
up to 10 entity names/types, and the caller-supplied extra context. -/
def combinedContext (st : AgentState) : List String :=
  (match st.requirements_analysis with
   | some _ => ["=== REQUIREMENTS ANALYSIS ==="]
   | none => []) ++
  (if st.retrieved_context ≠ [] then
    "=== RELEVANT DOCUMENTS ===" ::
      (st.retrieved_context.take 3).map (fun ctx => ctx.content.take 300)
   else []) ++
  (if st.knowledge_graph_entities ≠ [] then
    "=== KEY ENTITIES ===" ::
      (st.knowledge_graph_entities.take 10).map (fun e => "- " ++ e.name ++ " (" ++ e.type ++ ")")
   else []) ++
  (match st.additional_context with
   | some extra => ["=== ADDITIONAL CONTEXT ===", extra]
   | none => [])

/-- Stage 4, `_generate_stories`: on success with parsed stories the list
and flag are set; on a raise, or a result without
`success`/`parsed_stories`, the story list is emptied and an error
recorded — never an abort. -/
def generate_stories (o : GenOutcome) (st : AgentState) : AgentState :=
  let st1 :=
    match o with
    | .raise e =>
      { st with errors := st.errors ++ ["Story generation failed: " ++ e]
                generated_stories := []
                stories_generated := false }
    | .ok r =>
      if r.success then
        match r.parsed_stories with
        | some sd =>
          { st with generated_stories := sd.user_stories
                    stories_generated := true
                    messages := st.messages ++
                      ["Generated " ++ toString sd.user_stories.length ++ " user stories"] }
        | none =>
          { st with generated_stories := []
                    stories_generated := false
                    errors := st.errors ++
                      ["Story generation failed: " ++ r.parse_error.getD "Unknown error"] }
      else
        { st with generated_stories := []
                  stories_generated := false
                  errors := st.errors ++
                    ["Story generation failed: " ++ r.parse_error.getD "Unknown error"] }
  { st1 with current_step := "generate_stories" }

/-- The arithmetic mean of the per-story overall scores, 5 when the list
is empty — `sum(scores) / len(scores) if scores else 5`. -/
def overallScore (evals : List ℚ) : ℚ :=
  if evals = [] then 5 else evals.sum / evals.length

/-- Stage 5, `_quality_check`: with no generated stories it records a
zero score and returns *before* the `current_step` assignment; otherwise
the LLM outcome is recorded, a raise appending an error. -/
def quality_check (o : QualityOutcome) (st : AgentState) : AgentState :=
  if st.generated_stories = [] then
    { st with quality_scores := .zeroStories, quality_checked := true }
  else
    let st1 :=
      match o with
      | .raise e =>
        { st with errors := st.errors ++ ["Quality check failed: " ++ e]
                  quality_scores := .empty
                  quality_checked := false }
      | .okJson (some evals) =>
        { st with quality_scores := .parsedWithOverall evals (overallScore evals)
                  quality_checked := true
                  messages := st.messages ++ ["Quality check completed"] }
      | .okJson none =>
        { st with quality_scores := .parsedNoEvals
                  quality_checked := true
                  messages := st.messages ++ ["Quality check completed"] }
      | .okRaw text =>
        { st with quality_scores := .rawFeedback text
                  quality_checked := true
                  warnings := st.warnings ++ ["Quality check returned non-JSON format"] }
    { st1 with current_step := "quality_check" }

/-- Stage 6, `_finalize_results`: stamps completion metadata (the
error/warning counts and the per-stage checklist) and the summary
message; nothing in it can fail. -/
def finalize_results (st : AgentState) : AgentState :=
  { st with
    workflow_completed := true
    total_errors := some st.errors.length
    total_warnings := some st.warnings.length
    steps_completed :=
      [("analyze_requirements", st.analysis_complete),
       ("retrieve_context", st.context_retrieved),
       ("extract_kg_entities", !st.knowledge_graph_entities.isEmpty),
       ("generate_stories", st.stories_generated),
       ("quality_check", st.quality_checked)]
    messages := st.messages ++
      ["User story generation workflow completed for project " ++ toString st.project_id]
    current_step := "finalize_results" }

/-- The five external-call outcomes consumed by one run of the
workflow. -/
structure AgentOracles where
  analyze : LLMTextOutcome (List String)
  retrieve : RetrieveOutcome
  kg : KGOutcome
  gen : GenOutcome
  quality : QualityOutcome
  deriving Repr, DecidableEq

/-- Running the compiled graph: the six stages in their fixed linear
order, ending in `finalize_results`. -/
def run_workflow (o : AgentOracles) (st : AgentState) : AgentState :=
  finalize_results (quality_check o.quality (generate_stories o.gen
    (extract_kg_entities o.kg (retrieve_context o.retrieve
      (analyze_requirements o.analyze st)))))

/-- The initial `UserStoryState` built by `generate_user_stories`. -/
def initial_state (requirements : String) (pid uid : Nat)
    (persona additional_context : Option String) : AgentState :=
  { requirements := requirements
    project_id := pid
    user_id := uid
    persona := persona
    additional_context := additional_context
    current_step := "initialize"
    analysis_complete := false
    context_retrieved := false
    stories_generated := false
    quality_checked := false
    requirements_analysis := none
    retrieved_context := []
    generated_stories := []
    quality_scores := .empty
    knowledge_graph_entities := []
    workflow_completed := false
    total_errors := none
    total_warnings := none
    steps_completed := []
    messages := ["Generate user stories for: " ++ requirements.take 100 ++ "..."]
    errors := []
    warnings := [] }

/-- The result bundle packaged for the caller. -/
structure AgentResult where
  success : Bool
  user_stories : List String
  requirements_analysis : Option AnalysisVal
  quality_scores : QualityVal
  context_documents : List CtxDoc
  knowledge_graph_entities : List KGEnt
  workflow_completed : Bool
  messages : List String
  errors : List String
  warnings : List String
  deriving Repr, DecidableEq

/-- The public entry point `generate_user_stories`: build the initial
state, run the workflow, package the bundle; `success` is true exactly
when story generation specifically succeeded.  (The surrounding
`try/except` that degrades a pipeline-level exception to a failure bundle
is unreachable here, every stage being total.) -/
def agent_generate_user_stories (o : AgentOracles) (requirements : String)
    (pid uid : Nat) (persona additional_context : Option String) : AgentResult :=
  let final := run_workflow o (initial_state requirements pid uid persona additional_context)
  { success := final.stories_generated
    user_stories := final.generated_stories
    requirements_analysis := final.requirements_analysis
    quality_scores := final.quality_scores
    context_documents := final.retrieved_context
    knowledge_graph_entities := final.knowledge_graph_entities
    workflow_completed := final.workflow_completed
    messages := final.messages
    errors := final.errors
    warnings := final.warnings }

/-- Whether the generate-stories oracle produced a nonempty story list
(the condition under which the quality-check stage consults its own
oracle at all). -/
def genProducedStories (o : GenOutcome) : Bool :=
  match o with
  | .raise _ => false
  | .ok r =>
    r.success &&
      (match r.parsed_stories with
       | some sd => !sd.user_stories.isEmpty
       | none => false)

/-! ## Knowledge-graph service — entity extraction and validation

Embeds `extract_entities_from_text` and `_validate_entity` from
`app/services/knowledge_graph_service.py`.  A candidate entity parsed
from the model's JSON is a dict whose `name`/`type`/`description` may be
missing or empty and whose `confidence` may be any JSON value; Python's
`isinstance(confidence, (int, float))` accepts ints, floats and bools (a
bool being an int), all modelled as `num`. -/

/-- A JSON `confidence` value: numeric, or anything else. -/
inductive ConfVal where
  | num (q : ℚ)
  | nonNumeric (s : String)
  deriving Repr, DecidableEq

/-- A candidate entity as parsed from the model output. -/
structure RawEntity where
  name : Option String
  type : Option String
  description : Option String
  confidence : Option ConfVal
  deriving Repr, DecidableEq

/-- `[e.value for e in EntityType]`: the eleven allow-listed entity
types. -/
def entityTypeValues : List String :=
  ["project", "requirement", "feature", "user_story", "stakeholder",
   "business_rule", "dependency", "risk", "persona", "system", "process"]

/-- `field not in entity or not entity[field]`: a field is present when
the key exists and the value is truthy (a non-empty string). -/
def fieldPresent : Option String → Bool
  | none => false
  | some s => !(s == "")

/-- The confidence clamp: `entity.get("confidence", 0.5)` passes the
range check when the key is missing (leaving the dict unchanged); a
non-numeric or out-of-range value is overwritten with `0.5`. -/
def normalizeConfidence : Option ConfVal → Option ConfVal
  | none => none
  | some (.num q) => if q < 0 ∨ 1 < q then some (.num (1/2)) else some (.num q)
  | some (.nonNumeric _) => some (.num (1/2))

/-- `_validate_entity`: reject when `name`, `type` or `description` is
missing/empty or the type is not allow-listed; otherwise keep the entity
with its confidence normalized in place. -/
def validate_entity (e : RawEntity) : Option RawEntity :=
  if fieldPresent e.name && fieldPresent e.type && fieldPresent e.description then
    if entityTypeValues.contains (e.type.getD "") then
      some { e with confidence := normalizeConfidence e.confidence }
    else none
  else none

/-- A validated entity after enrichment with `project_id` and the
truncated `source_text` excerpt. -/
structure EnrichedEntity where
  entity : RawEntity
  project_id : Nat
  source_text : String
  deriving Repr, DecidableEq

/-- `text[:200] + "..." if len(text) > 200 else text`. -/
def sourceExcerpt (text : String) : String :=
  if text.length > 200 then text.take 200 ++ "..." else text

/-- The enrichment applied to each validated entity. -/
def enrichEntity (pid : Nat) (text : String) (ve : RawEntity) : EnrichedEntity :=
  { entity := ve, project_id := pid, source_text := sourceExcerpt text }

/-- Outcome of the extraction LLM call plus `json.loads`: a raise, text
that is not JSON, JSON that is not a list (replaced by `[]`), or a parsed
entity list. -/
inductive ExtractOutcome where
  | raise (msg : String)
  | okNonJson (text : String)
  | okJsonNonList
  | okJsonList (entities : List RawEntity)
  deriving Repr, DecidableEq

/-- `extract_entities_from_text`: parse/model failures yield an empty
list (logged, never raised); a parsed list is filtered through
`_validate_entity` and each survivor enriched and appended. -/
def extract_entities_from_text (o : ExtractOutcome) (text : String) (pid : Nat) :
    List EnrichedEntity :=
  match o with
  | .raise _ => []
  | .okNonJson _ => []
  | .okJsonNonList => []
  | .okJsonList es =>
    es.foldl (fun acc e =>
      match validate_entity e with
      | some ve => acc ++ [enrichEntity pid text ve]
      | none => acc) []

/-! ## RAG service — similarity-threshold retrieval

Embeds `retrieve_relevant_context` from `app/services/rag_service.py`:
the vector store returns `(document, score)` pairs in its own order; the
service keeps, in that order, exactly the pairs whose score meets the
threshold.  `similarity_threshold or settings.SIMILARITY_THRESHOLD` is
Python truthiness: `None` *and* `0.0` both fall back to the configured
default `0.7`. -/

/-- A `(document, score)` pair from
`vector_store.similarity_search_with_score`. -/
structure SearchHit where
  content : String
  metadata : List (String × String)
  score : ℚ
  deriving Repr, DecidableEq

/-- One formatted context entry of the result list. -/
structure CtxResult where
  content : String
  metadata : List (String × String)
  similarity_score : ℚ
  deriving Repr, DecidableEq

/-- `similarity_threshold or settings.SIMILARITY_THRESHOLD` (0 is
falsy). -/
def resolveSimilarityThreshold (t : Option ℚ) : ℚ :=
  match t with
  | none => 7/10
  | some v => if v = 0 then 7/10 else v

/-- `retrieve_relevant_context` restricted to its pure core: the loop
appending, in search order, every hit with `score >= similarity_threshold`. -/
def retrieve_relevant_context (results : List SearchHit) (threshold : Option ℚ) :
    List CtxResult :=
  let θ := resolveSimilarityThreshold threshold
  results.foldl (fun acc hit =>
    if θ ≤ hit.score then acc ++ [⟨hit.content, hit.metadata, hit.score⟩] else acc) []

/-! ## Text processing — keyword extraction

Embeds `extract_keywords` from `app/utils/text_processing.py`.
Tokenization is `re.findall(r'\b[a-zA-Z]{3,}\b', text.lower())`: because
`\b` separates word characters (`[A-Za-z0-9_]`) from non-word characters,
a match is exactly a *maximal* word-character run that consists purely of
letters and has length ≥ 3 (an alphabetic stretch inside a mixed run is
never matched, both its flanks being word characters).  The counting loop
then keeps only non-stop-words **longer than 3 characters** (`len(word) >
3` — strictly more than three, unlike the tokenizer's `{3,}`), counts
them in first-occurrence order, sorts by descending count (Python's
`sorted` is stable; a stable insertion sort computes the same list),
truncates to `max_keywords`, and drops entries occurring only once. -/

/-- A regex word character, `[A-Za-z0-9_]`. -/
def isWordChar (c : Char) : Bool := c.isAlpha || c.isDigit || c == '_'

/-- Splits a character list into its maximal runs of characters
satisfying `p`, dropping the separators (`acc` holds the current run
reversed). -/
def charRuns (p : Char → Bool) : List Char → List Char → List (List Char)
  | [], acc => if acc.isEmpty then [] else [acc.reverse]
  | c :: rest, acc =>
    if p c then charRuns p rest (c :: acc)
    else if acc.isEmpty then charRuns p rest []
    else acc.reverse :: charRuns p rest []

/-- The token list: maximal word-character runs of the lower-cased text
that are purely alphabetic and at least 3 long. -/
def findWords (text : String) : List String :=
  ((charRuns isWordChar (text.toList.map Char.toLower) []).filter
    (fun r => r.all Char.isAlpha && decide (3 ≤ r.length))).map (fun r => String.mk r)

/-- The fixed stop-word set literal of `extract_keywords` (the source
literal repeats `should` and `will`; set membership is unaffected). -/
def stop_words : List String :=
  ["the", "a", "an", "and", "or", "but", "in", "on", "at", "to", "for", "of", "with",
   "by", "from", "up", "about", "into", "through", "during", "before", "after", "above",
   "below", "under", "between", "among", "this", "that", "these", "those", "i", "me",
   "my", "myself", "we", "our", "ours", "ourselves", "you", "your", "yours",
   "yourself", "yourselves", "he", "him", "his", "himself", "she", "her", "hers",
   "herself", "it", "its", "itself", "they", "them", "their", "theirs", "themselves",
   "what", "which", "who", "whom", "whose", "where", "when", "why", "how", "all",
   "any", "both", "each", "few", "more", "most", "other", "some", "such", "no",
   "nor", "not", "only", "own", "same", "so", "than", "too", "very", "can", "will",
   "just", "should", "now", "are", "was", "were", "been", "being", "have", "has",
   "had", "having", "do", "does", "did", "doing", "would", "could", "should",
   "may", "might", "must", "shall", "will", "am", "is"]

/-- `word not in stop_words and len(word) > 3`: the filter applied before
counting — note the strict `> 3`. -/
def keywordQualifies (w : String) : Bool :=
  !(stop_words.contains w) && decide (3 < w.length)

/-- `word_freq[word] = word_freq.get(word, 0) + 1` on an
insertion-ordered dict. -/
def bumpFreq (m : List (String × Nat)) (w : String) : List (String × Nat) :=
  if m.any (fun p => p.1 == w) then
    m.map (fun p => if p.1 == w then (p.1, p.2 + 1) else p)
  else m ++ [(w, 1)]

/-- The frequency dict built by the counting loop. -/
def word_freq (words : List String) : List (String × Nat) :=
  words.foldl (fun m w => if keywordQualifies w then bumpFreq m w else m) []

/-- `sorted(word_freq.items(), key=lambda x: x[1], reverse=True)` —
stable descending sort by count — then `[:max_keywords]` and the
`freq > 1` filter, still as (word, count) pairs. -/
def keywordPairs (text : String) (max_keywords : Nat) : List (String × Nat) :=
  ((List.insertionSort (fun a b => b.2 ≤ a.2) (word_freq (findWords text))).take
      max_keywords).filter (fun p => 1 < p.2)

/-- `extract_keywords(text, max_keywords)`: the selected words. -/
def extract_keywords (text : String) (max_keywords : Nat) : List String :=
  (keywordPairs text max_keywords).map (fun p => p.1)

/-- The extraction *as the documented property words it*: identical
except that a word of length exactly 3 stays eligible (filter
`len(word) >= 3`, matching the tokenizer).  Kept purely as the comparison
point for the refutation. -/
def keywords_as_claimed (text : String) (max_keywords : Nat) : List String :=
  let freqs := (findWords text).foldl
    (fun m w => if !(stop_words.contains w) && decide (3 ≤ w.length) then bumpFreq m w else m) []
  (((List.insertionSort (fun a b => b.2 ≤ a.2) freqs).take max_keywords).filter
      (fun p => 1 < p.2)).map (fun p => p.1)

/-! ## Text processing — chunking

Embeds `chunk_text_intelligently` and `simple_chunk_text` from
`app/utils/text_processing.py`, over `List Char` (Python string slicing,
`strip`, and the two `re.split` patterns are spelled out).

`re.split(r'\n\s*\n', text)` is modelled by a scan: a separator match
starts at the first newline of a whitespace run and, matching `\s*`
greedily with the final `\n` backtracked, ends at the *last* newline of
that run — it exists only when the run holds at least two newlines;
characters of the run before the first and after the last newline stay
with the adjacent pieces.  `re.split(r'[.!?]+', paragraph)` splits at
every maximal run of sentence terminators, discarding the terminators.
Both scans, the accumulation loops and the fallback chunker are
structurally recursive, so every function here is kernel-computable. -/

/-- Python `\s` / `str.strip` whitespace (ASCII). -/
def pyWhitespace (c : Char) : Bool :=
  (c == ' ') || (c == '\t') || (c == '\n') || (c == '\r') || (c == '\x0b') || (c == '\x0c')

/-- Python `str.strip()`. -/
def pyStrip (l : List Char) : List Char :=
  ((l.dropWhile pyWhitespace).reverse.dropWhile pyWhitespace).reverse

/-- Python `s[-n:]` for `n > 0`: the trailing `n` characters (all of `s`
when `n ≥ len(s)`). -/
def takeRightChars (n : Nat) (l : List Char) : List Char :=
  l.drop (l.length - n)

/-- One chunk record (`index`/`content`/`size`/`type`). -/
structure PyChunk where
  index : Nat
  content : List Char
  size : Nat
  type : String
  deriving Repr, DecidableEq

/-- The `re.split(r'\n\s*\n', …)` scan.  `acc` is the current piece
(reversed); `pend` is `some run` while inside a whitespace run that
started with a newline (`run` reversed). -/
def paraSplitAux : List Char → List Char → Option (List Char) → List (List Char)
  | [], acc, none => [acc.reverse]
  | [], acc, some pend =>
    if 2 ≤ pend.count '\n' then
      [acc.reverse, (pend.takeWhile (fun c => !(c == '\n'))).reverse]
    else [(pend ++ acc).reverse]
  | c :: rest, acc, none =>
    if c == '\n' then paraSplitAux rest acc (some ['\n'])
    else paraSplitAux rest (c :: acc) none
  | c :: rest, acc, some pend =>
    if pyWhitespace c then paraSplitAux rest acc (some (c :: pend))
    else
      if 2 ≤ pend.count '\n' then
        acc.reverse :: paraSplitAux rest (c :: pend.takeWhile (fun x => !(x == '\n'))) none
      else paraSplitAux rest (c :: (pend ++ acc)) none

/-- `re.split(r'\n\s*\n', text)`. -/
def paraSplit (text : List Char) : List (List Char) :=
  paraSplitAux text [] none

/-- A sentence terminator, `[.!?]`. -/
def isSentSep (c : Char) : Bool :=
  (c == '.') || (c == '!') || (c == '?')

/-- The `re.split(r'[.!?]+', …)` scan; `inSep` marks that the previous
character already closed a piece. -/
def sentSplitAux : List Char → List Char → Bool → List (List Char)
  | [], acc, _ => [acc.reverse]
  | c :: rest, acc, inSep =>
    if isSentSep c then
      if inSep then sentSplitAux rest acc true
      else acc.reverse :: sentSplitAux rest [] true
    else sentSplitAux rest (c :: acc) false

/-- `re.split(r'[.!?]+', paragraph)`. -/
def sentSplit (l : List Char) : List (List Char) :=
  sentSplitAux l [] false

/-- The overlap seeding shared by both boundary paths:
`previous[-overlap:] + separator + next`. -/
def seedTail (ov : Nat) (prev sep next : List Char) : List Char :=
  takeRightChars ov prev ++ sep ++ next

/-- The sentence-level accumulator of the oversized-paragraph branch:
state is `(chunks, chunk_index, sentence_chunk)`; a sentence that would
overflow `chunk_size` closes the accumulated chunk (stripped, type
`"sentence_boundary"`) and seeds the next one with the trailing `overlap`
characters plus the sentence when `overlap > 0` and the closed chunk is
longer than `overlap`. -/
def sentStep (chunk_size ov : Nat) (st : List PyChunk × Nat × List Char)
    (sentence : List Char) : List PyChunk × Nat × List Char :=
  let (chunks, idx, schunk) := st
  if chunk_size < schunk.length + sentence.length then
    if schunk.isEmpty then (chunks, idx, sentence)
    else
      let schunk2 := if 0 < ov ∧ ov < schunk.length then
          seedTail ov schunk [' '] sentence
        else sentence
      (chunks ++ [⟨idx, pyStrip schunk, schunk.length, "sentence_boundary"⟩], idx + 1, schunk2)
  else (chunks, idx, if schunk.isEmpty then sentence else schunk ++ ' ' :: sentence)

/-- The mutable loop state of `chunk_text_intelligently`. -/
structure ChunkState where
  chunks : List PyChunk
  chunk_index : Nat
  current_chunk : List Char
  current_size : Nat
  deriving Repr, DecidableEq

/-- One iteration of the paragraph loop, on an already stripped,
non-empty paragraph: the oversized-paragraph branch flushes the current
chunk and re-splits by sentence; the boundary branch closes the current
chunk (stripped, type `"paragraph_boundary"`) and seeds the next with the
trailing `overlap` characters when `overlap > 0` and the closed chunk is
longer than `overlap`; otherwise the paragraph is appended, and
`current_size` grows by the paragraph size plus 2 (the post-assignment
`2 if current_chunk else 0` is always 2, the chunk having just become
non-empty). -/
def paraStep (chunk_size ov : Nat) (st : ChunkState) (para : List Char) : ChunkState :=
  if chunk_size < para.length then
    let st1 := if st.current_chunk.isEmpty then st
      else { chunks := st.chunks ++
               [⟨st.chunk_index, pyStrip st.current_chunk, st.current_chunk.length,
                 "paragraph_boundary"⟩]
             chunk_index := st.chunk_index + 1
             current_chunk := []
             current_size := 0 }
    let sents := ((sentSplit para).map pyStrip).filter (fun s => !s.isEmpty)
    let folded := sents.foldl (sentStep chunk_size ov) (st1.chunks, st1.chunk_index, [])
    if folded.2.2.isEmpty then
      { st1 with chunks := folded.1, chunk_index := folded.2.1 }
    else
      { chunks := folded.1
        chunk_index := folded.2.1
        current_chunk := folded.2.2
        current_size := folded.2.2.length }
  else if chunk_size < st.current_size + para.length then
    if st.current_chunk.isEmpty then
      { st with current_chunk := para, current_size := para.length }
    else
      let next := if 0 < ov ∧ ov < st.current_chunk.length then
          seedTail ov st.current_chunk ['\n', '\n'] para
        else para
      { chunks := st.chunks ++
          [⟨st.chunk_index, pyStrip st.current_chunk, st.current_chunk.length,
            "paragraph_boundary"⟩]
        chunk_index := st.chunk_index + 1
        current_chunk := next
        current_size := next.length }
  else
    { st with
      current_chunk := if st.current_chunk.isEmpty then para
        else st.current_chunk ++ '\n' :: '\n' :: para
      current_size := st.current_size + para.length + 2 }

/-- `chunk_text_intelligently(text, chunk_size, overlap)` (the
non-raising path; the `except` fallback to the simple chunker is
unreachable for total stages). -/
def chunk_text_intelligently (text : List Char) (chunk_size ov : Nat) : List PyChunk :=
  if text.isEmpty then [] else
  let paras := ((paraSplit text).map pyStrip).filter (fun p => !p.isEmpty)
  let st := paras.foldl (paraStep chunk_size ov) ⟨[], 0, [], 0⟩
  if st.current_chunk.isEmpty then st.chunks
  else st.chunks ++ [⟨st.chunk_index, pyStrip st.current_chunk, st.current_chunk.length, "final"⟩]

/-- The property stated for the intelligent chunker: every chunk after
the first begins with the trailing `overlap` characters of its
predecessor. -/
def overlapPropertyHolds (text : List Char) (cs ov : Nat) : Prop :=
  ∀ i : Nat, 0 < i → i < (chunk_text_intelligently text cs ov).length →
    ∀ c1 c0 : PyChunk,
      (chunk_text_intelligently text cs ov).get? i = some c1 →
      (chunk_text_intelligently text cs ov).get? (i - 1) = some c0 →
      c1.content.take ov = takeRightChars ov c0.content

/-- A 150-character paragraph followed by a 900-character one: the first
chunk closes with only 150 characters, no longer than the 200-character
overlap, so the second chunk starts fresh. -/
def exC7Text : List Char :=
  List.replicate 150 'a' ++ '\n' :: '\n' :: List.replicate 900 'b'

/-- The backward word-boundary scan of `simple_chunk_text`:
`while end > start and text[end] != ' ': end -= 1`. -/
def snapBack (text : List Char) (start : Nat) : Nat → Nat
  | 0 => 0
  | e + 1 =>
    if start < e + 1 then
      if text.getD (e + 1) ' ' == ' ' then e + 1 else snapBack text start e
    else e + 1

/-- The `while start < len(text)` loop of `simple_chunk_text`, with
explicit fuel (each iteration advances `start` to
`max(start + 1, end - overlap)`, so `len(text) + 1` fuel suffices —
that is the termination theorem below). -/
def simple_chunk_loop (text : List Char) (chunk_size ov : Nat) :
    Nat → Nat → Nat → List PyChunk → Option (List PyChunk)
  | 0, _, _, _ => none
  | fuel + 1, start, idx, acc =>
    if start < text.length then
      let e0 := start + chunk_size
      let e1 := if e0 < text.length then
          (let eb := snapBack text start e0
           if eb == start then start + chunk_size else eb)
        else e0
      let content := pyStrip ((text.drop start).take (e1 - start))
      let acc2 := if content.isEmpty then acc
        else acc ++ [⟨idx, content, content.length, "simple"⟩]
      let idx2 := if content.isEmpty then idx else idx + 1
      simple_chunk_loop text chunk_size ov fuel (max (start + 1) (e1 - ov)) idx2 acc2
    else some acc

/-- `simple_chunk_text(text, chunk_size, overlap)`, run with the fuel the
termination theorem proves sufficient. -/
def simple_chunk_text (text : List Char) (chunk_size ov : Nat) : Option (List PyChunk) :=
  simple_chunk_loop text chunk_size ov (text.length + 1) 0 0 []

/-- The parsed generation payload used by the agent witness. -/
def demoStoriesData : StoriesData :=
  { user_stories := ["story one"], confidence_score := none }

/-- Oracles for the resilience witness: the analyze call raises, every
other call succeeds, and generation parses one story. -/
def demoOracles : AgentOracles :=
  { analyze := .raise "boom"
    retrieve := .ok []
    kg := .ok []
    gen := .ok { success := true, parsed_stories := some demoStoriesData, parse_error := none }
    quality := .okJson (some [7]) }

/-- A two-user database for the ownership witnesses: project 1 belongs to
user 2, with one document and one story; the caller is user 3. -/
def demoRouterDB : RouterDB :=
  { projects := [{ id := 1, owner_id := 2 }]
    documents := [{ id := 11, project_id := 1, payload := "doc" }]
    stories := [{ id := 21, project_id := 1, payload := "story" }] }

/-- A minimal story record used by the C4 witness. -/
def demoStory : StoryRec :=
  { id := 5, title := "T", persona := "dev", functionality := "f", benefit := "b"
    story_text := "As a dev, I want f so that b.", description := none
    acceptance_criteria := [], definition_of_done := [], status := "draft"
    priority := "medium", story_points := none, business_value := none
    generated_by_ai := false, generation_prompt := none, generation_context := []
    confidence_score := none, quality_score := none, clarity_score := none
    completeness_score := none, testability_score := none, project_id := 1
    created_by_user_id := 2, assigned_to_user_id := none, jira_issue_key := none
    external_id := none, external_url := none, kg_story_id := none
    source_documents := [], source_requirements := [], tags := [], epic := none
    theme := none, feature := none, estimated_hours := none, complexity := none
    risk_level := none, depends_on := [], blocks := [], created_at := 0
    updated_at := none, approved_at := none, completed_at := none }

/-- An update request that only changes the title. -/
def demoUpd : StoryUpd :=
  { title := some "T2", persona := none, functionality := none, benefit := none
    description := none, acceptance_criteria := none, definition_of_done := none
    status := none, priority := none, story_points := none, business_value := none
    tags := none, epic := none, theme := none, feature := none, complexity := none
    risk_level := none, estimated_hours := none, assigned_to_user_id := none
    change_description := none }

/-- The single-story database owned by user 2 for the C4 witness. -/
def demoStoryDB : StoryDB :=
  { projects := [{ id := 1, owner_id := 2 }], stories := [demoStory], versions := [] }

/-- The version row the C4 witness expects to be written. -/
def demoVersion : VersionRec :=
  { user_story_id := 5, version_number := 1, change_description := "Updated via API"
    changed_by_user_id := 2, story_data := demoStory }

end RagSpec

namespace RagSpec

/-! # Theorems -/

/-- **C3.** For every claim set containing `sub`, `user_id` and `role`,
and every token produced from it by `create_access_token` that is not yet
expired at verification time: verifying with expected type `"access"`
yields a payload whose `sub`, `user_id` and `role` equal the inputs;
verifying the same token with expected type `"refresh"` yields `none`;
and verifying any token whose expiry has passed yields `none`. -/
theorem access_token_round_trip (data : TokenData) (issued now : Nat)
    (delta : Option Nat)
    (h : ¬ (create_access_token data issued delta).exp < now) :
    (∃ p, verify_token (create_access_token data issued delta) "access" now = some p ∧
        p.sub = some data.sub ∧ p.user_id = some data.user_id ∧ p.role = some data.role) ∧
    verify_token (create_access_token data issued delta) "refresh" now = none ∧
    (∀ (t : Claims) (later : Nat), t.exp < later → verify_token t "access" later = none) := by
  have h' : ¬ issued + delta.getD accessTokenLifetime < now := h
  refine ⟨⟨create_access_token data issued delta, ?_, rfl, rfl, rfl⟩, ?_, ?_⟩
  · simp [verify_token, jwtDecode, create_access_token, h']
  · simp [verify_token, jwtDecode, create_access_token, h']
  · intro t later hlt
    simp [verify_token, jwtDecode, hlt]

/-- Witness for `access_token_round_trip` at a concrete claim set and
time. -/
theorem access_token_round_trip_witness :
    ¬ (create_access_token ⟨"alice", 1, "user"⟩ 0 none).exp < 60 ∧
    (∃ p, verify_token (create_access_token ⟨"alice", 1, "user"⟩ 0 none) "access" 60 = some p ∧
        p.sub = some "alice" ∧ p.user_id = some 1 ∧ p.role = some "user") := by
  have h : ¬ (create_access_token ⟨"alice", 1, "user"⟩ 0 none).exp < 60 := by decide
  exact ⟨h, (access_token_round_trip ⟨"alice", 1, "user"⟩ 0 60 none h).1⟩

/-- Helper: if no project with the given id is owned by the caller, the
ownership subquery is empty. -/
theorem ownsProject_eq_false {db : RouterDB} {uid pid : Nat}
    (h : ∀ p ∈ db.projects, p.id = pid → p.owner_id ≠ uid) :
    ownsProject db uid pid = false := by
  simp only [ownsProject, List.any_eq_false, Bool.and_eq_true, beq_iff_eq, not_and]
  intro p hp hpid
  exact h p hp hpid

/-- Helper: under the non-ownership hypothesis for an id, the
join-filter-first lookup over documents is empty. -/
theorem doc_find_eq_none {db : RouterDB} {uid did : Nat}
    (h : ∀ d ∈ db.documents, d.id = did →
        ∀ p ∈ db.projects, p.id = d.project_id → p.owner_id ≠ uid) :
    db.documents.find? (fun d => d.id == did && ownsProject db uid d.project_id) = none := by
  rw [List.find?_eq_none]
  intro d hd
  simp only [Bool.and_eq_true, beq_iff_eq, not_and]
  intro hid
  exact (ownsProject_eq_false (h d hd hid)) ▸ (by simp)

/-- Helper: the story-side lookup is empty likewise. -/
theorem story_find_eq_none {db : RouterDB} {uid sid : Nat}
    (h : ∀ s ∈ db.stories, s.id = sid →
        ∀ p ∈ db.projects, p.id = s.project_id → p.owner_id ≠ uid) :
    db.stories.find? (fun s => s.id == sid && ownsProject db uid s.project_id) = none := by
  rw [List.find?_eq_none]
  intro s hs
  simp only [Bool.and_eq_true, beq_iff_eq, not_and]
  intro hid
  exact (ownsProject_eq_false (h s hs hid)) ▸ (by simp)

/-- **C2.** If every document with id `did` (and every story with id
`sid`) has a parent project not owned by `uid` — a hypothesis that also
holds vacuously when no such row exists at all, which is exactly why the
two cases are observably identical — then every read, update and delete
by `uid` returns 404 (never 403, never the data), a list scoped to a
project the caller does not own returns 404, and the unscoped lists only
ever contain rows of owned projects, so the resource never leaks. -/
theorem ownership_isolation (db : RouterDB) (uid did sid : Nat)
    (hd : ∀ d ∈ db.documents, d.id = did →
        ∀ p ∈ db.projects, p.id = d.project_id → p.owner_id ≠ uid)
    (hs : ∀ s ∈ db.stories, s.id = sid →
        ∀ p ∈ db.projects, p.id = s.project_id → p.owner_id ≠ uid) :
    get_document db uid did = .error 404 ∧
    (∀ np, update_document db uid did np = .error 404) ∧
    delete_document db uid did = .error 404 ∧
    (∀ pid, (∀ p ∈ db.projects, p.id = pid → p.owner_id ≠ uid) →
        list_documents db uid (some pid) = .error 404 ∧
        list_user_stories db uid (some pid) = .error 404) ∧
    (∀ l, list_documents db uid none = .ok l → ∀ d ∈ l, d.id ≠ did) ∧
    get_user_story db uid sid = .error 404 ∧
    (∀ np, update_user_story_access db uid sid np = .error 404) ∧
    delete_user_story db uid sid = .error 404 ∧
    (∀ l, list_user_stories db uid none = .ok l → ∀ s ∈ l, s.id ≠ sid) := by
  have hfd := doc_find_eq_none hd
  have hfs := story_find_eq_none hs
  refine ⟨?_, ?_, ?_, ?_, ?_, ?_, ?_, ?_, ?_⟩
  · simp [get_document, hfd]
  · intro np; simp [update_document, hfd]
  · simp [delete_document, hfd]
  · intro pid hpid
    have := ownsProject_eq_false hpid
    constructor
    · simp [list_documents, this]
    · simp [list_user_stories, this]
  · intro l hl d hdl hid
    simp only [list_documents, Except.ok.injEq] at hl
    subst hl
    rcases List.mem_filter.mp hdl with ⟨hdmem, howns⟩
    subst hid
    rw [ownsProject_eq_false (hd d hdmem rfl)] at howns
    exact Bool.false_ne_true howns
  · simp [get_user_story, hfs]
  · intro np; simp [update_user_story_access, hfs]
  · simp [delete_user_story, hfs]
  · intro l hl s hsl hid
    simp only [list_user_stories, Except.ok.injEq] at hl
    subst hl
    rcases List.mem_filter.mp hsl with ⟨hsmem, howns⟩
    subst hid
    rw [ownsProject_eq_false (hs s hsmem rfl)] at howns
    exact Bool.false_ne_true howns

/-- Witness for `ownership_isolation`: user 3 asks for user 2's document
and story. -/
theorem ownership_isolation_witness :
    get_document demoRouterDB 3 11 = .error 404 ∧
    get_user_story demoRouterDB 3 21 = .error 404 ∧
    delete_document demoRouterDB 3 11 = .error 404 := by
  have h := ownership_isolation demoRouterDB 3 11 21
    (by intro d hd hid p hp hpid; fin_cases hp; fin_cases hd; simp_all)
    (by intro s hs hid p hp hpid; fin_cases hp; fin_cases hs; simp_all)
  exact ⟨h.1, h.2.2.2.2.2.1, h.2.2.1⟩

/-- **C4.** When the update route finds the (owner-checked) story, it
creates exactly one new `UserStoryVersion` row, whose `story_data`
snapshot is the story's field values immediately before the update is
applied, and whose `version_number` is the count of that story's prior
versions plus one; the stored story then becomes the updated record. -/
theorem update_writes_one_version (db : StoryDB) (uid sid : Nat) (u : StoryUpd)
    (now : Nat) (s : StoryRec)
    (h : db.stories.find? (fun t =>
        t.id == sid && db.projects.any (fun p => p.id == t.project_id && p.owner_id == uid)) =
      some s) :
    ∃ db2, update_user_story db uid sid u now = .ok (db2, applyStoryUpdate s u now) ∧
      db2.versions = db.versions ++
        [{ user_story_id := s.id
           version_number :=
             (db.versions.filter (fun w => w.user_story_id == s.id)).length + 1
           change_description := u.change_description.getD "Updated via API"
           changed_by_user_id := uid
           story_data := s }] ∧
      db2.versions.length = db.versions.length + 1 := by
  refine ⟨{ projects := db.projects
            stories := db.stories.map (fun t =>
              if t.id == s.id then applyStoryUpdate s u now else t)
            versions := db.versions ++
              [{ user_story_id := s.id
                 version_number :=
                   (db.versions.filter (fun w => w.user_story_id == s.id)).length + 1
                 change_description := u.change_description.getD "Updated via API"
                 changed_by_user_id := uid
                 story_data := s }] }, ?_, rfl, by simp⟩
  simp [update_user_story, h]

/-- Witness for `update_writes_one_version`: user 2 updates their own
story; exactly one version row with number 1 and the pre-update snapshot
appears. -/
theorem update_writes_one_version_witness :
    ∃ db2, update_user_story demoStoryDB 2 5 demoUpd 9 = .ok (db2, applyStoryUpdate demoStory demoUpd 9) ∧
      db2.versions = [demoVersion] ∧
      db2.versions.length = 1 := by
  have h := update_writes_one_version demoStoryDB 2 5 demoUpd 9 demoStory (by rfl)
  rcases h with ⟨db2, h1, h2, h3⟩
  exact ⟨db2, h1, by rw [h2]; rfl, h3⟩

/-- Helper: no stage ever removes recorded errors. -/
theorem stage_errors_persist (st : AgentState) (h : st.errors ≠ []) :
    ∀ (oa : LLMTextOutcome (List String)) (orr : RetrieveOutcome) (ok : KGOutcome)
      (og : GenOutcome) (oq : QualityOutcome),
      (analyze_requirements oa st).errors ≠ [] ∧
      (retrieve_context orr st).errors ≠ [] ∧
      (extract_kg_entities ok st).errors ≠ [] ∧
      (generate_stories og st).errors ≠ [] ∧
      (quality_check oq st).errors ≠ [] ∧
      (finalize_results st).errors ≠ [] := by
  intro oa orr ok og oq
  refine ⟨?_, ?_, ?_, ?_, ?_, ?_⟩
  · cases oa <;> simp [analyze_requirements, h]
  · cases orr <;> simp [retrieve_context, h]
  · cases ok <;> simp [extract_kg_entities, h]
  · cases og with
    | raise e => simp [generate_stories, h]
    | ok r =>
      by_cases hs : r.success = true
      · cases hp : r.parsed_stories <;> simp [generate_stories, hs, hp, h]
      · simp [generate_stories, Bool.eq_false_iff.mpr hs, h]
  · by_cases hg : st.generated_stories = []
    · simp [quality_check, hg, h]
    · cases oq with
      | raise e => simp [quality_check, hg, h]
      | okJson v => cases v <;> simp [quality_check, hg, h]
      | okRaw t => simp [quality_check, hg, h]
  · simp [finalize_results, h]

/-- Helper: the quality and finalize stages do not touch the generated
story list. -/
theorem generated_stories_stable (st : AgentState) (oq : QualityOutcome) :
    (quality_check oq st).generated_stories = st.generated_stories ∧
    (finalize_results st).generated_stories = st.generated_stories := by
  constructor
  · by_cases hg : st.generated_stories = []
    · simp [quality_check, hg]
    · cases oq with
      | raise e => simp [quality_check, hg]
      | okJson v => cases v <;> simp [quality_check, hg]
      | okRaw t => simp [quality_check, hg]
  · simp [finalize_results]

/-- Helper: when the generation oracle produced a nonempty story list,
the state leaving `generate_stories` carries it. -/
theorem generate_stories_nonempty {og : GenOutcome} (st : AgentState)
    (h : genProducedStories og = true) :
    (generate_stories og st).generated_stories ≠ [] := by
  cases og with
  | raise e => simp [genProducedStories] at h
  | ok r =>
    cases hp : r.parsed_stories with
    | none => simp [genProducedStories, hp] at h
    | some sd =>
      simp only [genProducedStories, hp, Bool.and_eq_true] at h
      have hne : sd.user_stories ≠ [] := by
        intro hc
        rw [hc] at h
        simp at h
      simp [generate_stories, h.1, hp, hne]

/-- **C5.** Under any single-stage failure — the analyze, retrieve,
knowledge-graph or generate oracle raising, or the quality oracle raising
in a run where the generate stage did produce stories (otherwise quality
performs no call at all) — the agent's public entry point still returns a
well-formed bundle: the workflow reaches `finalize_results` (which stamps
`workflow_completed`), the returned `errors` list is non-empty, and
`generated_stories` is exactly what the generate stage could still
produce, empty when that stage itself raised. -/
theorem agent_resilient_to_stage_failure (o : AgentOracles) (req : String)
    (pid uid : Nat) (persona addctx : Option String)
    (h : (∃ e, o.analyze = .raise e) ∨ (∃ e, o.retrieve = .raise e) ∨
         (∃ e, o.kg = .raise e) ∨ (∃ e, o.gen = .raise e) ∨
         ((∃ e, o.quality = .raise e) ∧ genProducedStories o.gen = true)) :
    (agent_generate_user_stories o req pid uid persona addctx).errors ≠ [] ∧
    (agent_generate_user_stories o req pid uid persona addctx).workflow_completed = true ∧
    (run_workflow o (initial_state req pid uid persona addctx)).current_step =
      "finalize_results" ∧
    (∀ e, o.gen = .raise e →
      (agent_generate_user_stories o req pid uid persona addctx).user_stories = []) := by
  refine ⟨?_, ?_, ?_, ?_⟩
  · show (run_workflow o (initial_state req pid uid persona addctx)).errors ≠ []
    unfold run_workflow
    rcases h with ⟨e, he⟩ | ⟨e, he⟩ | ⟨e, he⟩ | ⟨e, he⟩ | ⟨⟨e, he⟩, hg⟩
    · have h1 : (analyze_requirements o.analyze
          (initial_state req pid uid persona addctx)).errors ≠ [] := by
        rw [he]; simp [analyze_requirements]
      have h2 := (stage_errors_persist _ h1 o.analyze o.retrieve o.kg o.gen o.quality).2.1
      have h3 := (stage_errors_persist _ h2 o.analyze o.retrieve o.kg o.gen o.quality).2.2.1
      have h4 := (stage_errors_persist _ h3 o.analyze o.retrieve o.kg o.gen o.quality).2.2.2.1
      have h5 := (stage_errors_persist _ h4 o.analyze o.retrieve o.kg o.gen o.quality).2.2.2.2.1
      exact (stage_errors_persist _ h5 o.analyze o.retrieve o.kg o.gen o.quality).2.2.2.2.2
    · have h2 : (retrieve_context o.retrieve (analyze_requirements o.analyze
          (initial_state req pid uid persona addctx))).errors ≠ [] := by
        rw [he]; simp [retrieve_context]
      have h3 := (stage_errors_persist _ h2 o.analyze o.retrieve o.kg o.gen o.quality).2.2.1
      have h4 := (stage_errors_persist _ h3 o.analyze o.retrieve o.kg o.gen o.quality).2.2.2.1
      have h5 := (stage_errors_persist _ h4 o.analyze o.retrieve o.kg o.gen o.quality).2.2.2.2.1
      exact (stage_errors_persist _ h5 o.analyze o.retrieve o.kg o.gen o.quality).2.2.2.2.2
    · have h3 : (extract_kg_entities o.kg (retrieve_context o.retrieve
          (analyze_requirements o.analyze
            (initial_state req pid uid persona addctx)))).errors ≠ [] := by
        rw [he]; simp [extract_kg_entities]
      have h4 := (stage_errors_persist _ h3 o.analyze o.retrieve o.kg o.gen o.quality).2.2.2.1
      have h5 := (stage_errors_persist _ h4 o.analyze o.retrieve o.kg o.gen o.quality).2.2.2.2.1
      exact (stage_errors_persist _ h5 o.analyze o.retrieve o.kg o.gen o.quality).2.2.2.2.2
    · have h4 : (generate_stories o.gen (extract_kg_entities o.kg
          (retrieve_context o.retrieve (analyze_requirements o.analyze
            (initial_state req pid uid persona addctx))))).errors ≠ [] := by
        rw [he]; simp [generate_stories]
      have h5 := (stage_errors_persist _ h4 o.analyze o.retrieve o.kg o.gen o.quality).2.2.2.2.1
      exact (stage_errors_persist _ h5 o.analyze o.retrieve o.kg o.gen o.quality).2.2.2.2.2
    · have hne := generate_stories_nonempty
        (extract_kg_entities o.kg (retrieve_context o.retrieve
          (analyze_requirements o.analyze (initial_state req pid uid persona addctx)))) hg
      have h5 : (quality_check o.quality (generate_stories o.gen (extract_kg_entities o.kg
          (retrieve_context o.retrieve (analyze_requirements o.analyze
            (initial_state req pid uid persona addctx)))))).errors ≠ [] := by
        rw [he]; simp [quality_check, hne]
      exact (stage_errors_persist _ h5 o.analyze o.retrieve o.kg o.gen o.quality).2.2.2.2.2
  · simp [agent_generate_user_stories, run_workflow, finalize_results]
  · simp [run_workflow, finalize_results]
  · intro e he
    show (run_workflow o (initial_state req pid uid persona addctx)).generated_stories = []
    unfold run_workflow
    rw [(generated_stories_stable _ o.quality).2, (generated_stories_stable _ o.quality).1, he]
    simp [generate_stories]

/-- Witness for `agent_resilient_to_stage_failure`: a run where the
analyze oracle raises and the story generation succeeds anyway. -/
theorem agent_resilient_witness :
    ((∃ e, demoOracles.analyze = .raise e) ∨ (∃ e, demoOracles.retrieve = .raise e) ∨
      (∃ e, demoOracles.kg = .raise e) ∨ (∃ e, demoOracles.gen = .raise e) ∨
      ((∃ e, demoOracles.quality = .raise e) ∧ genProducedStories demoOracles.gen = true)) ∧
    (agent_generate_user_stories demoOracles "reqs" 1 2 none none).errors ≠ [] ∧
    (agent_generate_user_stories demoOracles "reqs" 1 2 none none).workflow_completed = true := by
  have hd : (∃ e, demoOracles.analyze = .raise e) ∨ (∃ e, demoOracles.retrieve = .raise e) ∨
      (∃ e, demoOracles.kg = .raise e) ∨ (∃ e, demoOracles.gen = .raise e) ∨
      ((∃ e, demoOracles.quality = .raise e) ∧ genProducedStories demoOracles.gen = true) :=
    .inl ⟨"boom", rfl⟩
  have h := agent_resilient_to_stage_failure demoOracles "reqs" 1 2 none none hd
  exact ⟨hd, h.1, h.2.1⟩

/-- Helper: a left fold that appends `g e` for every element passing `f`
(as an `Option`) is `filterMap` after the accumulator. -/
theorem foldl_append_filterMap {α β : Type} (f : α → Option β) :
    ∀ (l : List α) (acc : List β),
      l.foldl (fun acc e => match f e with | some b => acc ++ [b] | none => acc) acc =
        acc ++ l.filterMap f := by
  intro l
  induction l with
  | nil => intro acc; simp
  | cons x xs ih =>
    intro acc
    cases hx : f x <;> simp [List.filterMap_cons, hx, ih, List.append_assoc]

/-- Helper: a left fold that appends `g e` for every element satisfying
`p` is `filter` then `map` after the accumulator. -/
theorem foldl_append_ite {α β : Type} (p : α → Bool) (g : α → β) :
    ∀ (l : List α) (acc : List β),
      l.foldl (fun acc e => if p e then acc ++ [g e] else acc) acc =
        acc ++ (l.filter p).map g := by
  intro l
  induction l with
  | nil => intro acc; simp
  | cons x xs ih =>
    intro acc
    by_cases hx : p x = true <;> simp [List.filter_cons, hx, ih, List.append_assoc]

/-- **C6.** A candidate entity parsed from the model's JSON is dropped —
before being counted or persisted — exactly when its `name`, `type` or
`description` is missing or empty or its `type` is not one of the eleven
allow-listed values; survivors are kept with their fields intact except
that a non-numeric or out-of-range confidence is coerced to `0.5` rather
than the entity being rejected. -/
theorem entity_validation_gate (es : List RawEntity) (text : String) (pid : Nat) :
    extract_entities_from_text (.okJsonList es) text pid =
      es.filterMap (fun e => (validate_entity e).map (enrichEntity pid text)) ∧
    (∀ e : RawEntity, validate_entity e = none ↔
      (fieldPresent e.name = false ∨ fieldPresent e.type = false ∨
        fieldPresent e.description = false ∨
        e.type.getD "" ∉ entityTypeValues)) ∧
    (∀ q : ℚ, q < 0 ∨ 1 < q → normalizeConfidence (some (.num q)) = some (.num (1/2))) ∧
    (∀ s : String, normalizeConfidence (some (.nonNumeric s)) = some (.num (1/2))) ∧
    (∀ e ve : RawEntity, validate_entity e = some ve →
      ve.name = e.name ∧ ve.type = e.type ∧ ve.description = e.description ∧
      ve.confidence = normalizeConfidence e.confidence) := by
  refine ⟨?_, ?_, ?_, ?_, ?_⟩
  · have h := foldl_append_filterMap
      (fun e => (validate_entity e).map (enrichEntity pid text)) es []
    simp only [List.nil_append] at h
    rw [← h]
    simp only [extract_entities_from_text]
    congr 1
    funext acc e
    cases validate_entity e <;> simp
  · intro e
    by_cases hm : e.type.getD "" ∈ entityTypeValues
    · cases hn : fieldPresent e.name <;> cases ht : fieldPresent e.type <;>
        cases hd : fieldPresent e.description <;>
        simp [validate_entity, hn, ht, hd, hm]
    · cases hn : fieldPresent e.name <;> cases ht : fieldPresent e.type <;>
        cases hd : fieldPresent e.description <;>
        simp [validate_entity, hn, ht, hd, hm]
  · intro q hq
    simp [normalizeConfidence, hq]
  · intro s
    simp [normalizeConfidence]
  · intro e ve hv
    unfold validate_entity at hv
    split at hv
    · split at hv
      · obtain h3 := Option.some.inj hv
        subst h3
        exact ⟨rfl, rfl, rfl, rfl⟩
      · exact absurd hv (by simp)
    · exact absurd hv (by simp)

/-- A candidate entity with every required field present but a
confidence above the allowed range, and another missing its description,
for the C6 witness. -/
def demoGoodEntity : RawEntity :=
  { name := some "Checkout", type := some "feature", description := some "cart checkout"
    confidence := some (.num 2) }

/-- A candidate entity missing its description. -/
def demoBadEntity : RawEntity :=
  { name := some "Ghost", type := some "feature", description := none, confidence := none }

/-- Witness for `entity_validation_gate`: the out-of-range confidence is
coerced to `0.5`, the field-missing entity is dropped, and the extraction
output is exactly the validated survivor. -/
theorem entity_validation_gate_witness :
    validate_entity demoBadEntity = none ∧
    normalizeConfidence (some (.num 2)) = some (.num (1/2)) ∧
    extract_entities_from_text (.okJsonList [demoGoodEntity, demoBadEntity]) "reqs" 4 =
      [demoGoodEntity, demoBadEntity].filterMap
        (fun e => (validate_entity e).map (enrichEntity 4 "reqs")) := by
  have h := entity_validation_gate [demoGoodEntity, demoBadEntity] "reqs" 4
  refine ⟨?_, h.2.2.1 2 (by norm_num), h.1⟩
  exact (h.2.1 demoBadEntity).mpr (by decide)

/-- **C9.** With `similarity_threshold = 0.7`, `retrieve_relevant_context`
returns exactly the chunks whose score is at least `0.7`, in the order
the underlying similarity search produced them (the output is the
score-filter of the input, hence a sublist of it), and returns `[]` when
no chunk meets the threshold. -/
theorem retrieval_threshold_filter (results : List SearchHit) :
    retrieve_relevant_context results (some (7/10)) =
      (results.filter (fun h => (7/10 : ℚ) ≤ h.score)).map
        (fun h => ⟨h.content, h.metadata, h.score⟩) ∧
    (∀ c : CtxResult, c ∈ retrieve_relevant_context results (some (7/10)) ↔
      ∃ h ∈ results, (7/10 : ℚ) ≤ h.score ∧
        c = ⟨h.content, h.metadata, h.score⟩) ∧
    List.Sublist
      ((retrieve_relevant_context results (some (7/10))).map
        (fun c => (c.content, c.similarity_score)))
      (results.map (fun h => (h.content, h.score))) ∧
    ((∀ h ∈ results, h.score < 7/10) → retrieve_relevant_context results (some (7/10)) = []) := by
  have hθ : resolveSimilarityThreshold (some (7/10)) = 7/10 := by
    simp [resolveSimilarityThreshold]
  have hmain : retrieve_relevant_context results (some (7/10)) =
      (results.filter (fun h => (7/10 : ℚ) ≤ h.score)).map
        (fun h => ⟨h.content, h.metadata, h.score⟩) := by
    unfold retrieve_relevant_context
    rw [hθ]
    have h := foldl_append_ite (fun h : SearchHit => decide ((7/10 : ℚ) ≤ h.score))
      (fun h : SearchHit => (⟨h.content, h.metadata, h.score⟩ : CtxResult)) results []
    simp only [List.nil_append] at h
    simpa using h
  refine ⟨hmain, ?_, ?_, ?_⟩
  · intro c
    rw [hmain]
    simp only [List.mem_map, List.mem_filter, decide_eq_true_eq]
    constructor
    · rintro ⟨h, ⟨hm, hs⟩, rfl⟩
      exact ⟨h, hm, hs, rfl⟩
    · rintro ⟨h, hm, hs, rfl⟩
      exact ⟨h, ⟨hm, hs⟩, rfl⟩
  · rw [hmain]
    have hsub : List.Sublist (results.filter (fun h => (7/10 : ℚ) ≤ h.score)) results :=
      List.filter_sublist results
    have := hsub.map (fun h : SearchHit => (h.content, h.score))
    simpa [Function.comp, List.map_map] using this
  · intro hall
    rw [hmain]
    have : results.filter (fun h => (7/10 : ℚ) ≤ h.score) = [] := by
      rw [List.filter_eq_nil_iff]
      intro h hm
      simp only [decide_eq_true_eq, not_le]
      exact hall h hm
    rw [this]
    rfl

/-- Witness for `retrieval_threshold_filter`: three hits with scores
0.9, 0.5, 0.7 keep exactly the first and third, in order. -/
theorem retrieval_threshold_filter_witness :
    retrieve_relevant_context
      [{ content := "a", metadata := [], score := 9/10 },
       { content := "b", metadata := [], score := 1/2 },
       { content := "c", metadata := [], score := 7/10 }] (some (7/10)) =
      [{ content := "a", metadata := [], similarity_score := 9/10 },
       { content := "c", metadata := [], similarity_score := 7/10 }] ∧
    ((∀ h ∈ [({ content := "a", metadata := [], score := 1/2 } : SearchHit)],
        h.score < 7/10) →
      retrieve_relevant_context
        [({ content := "a", metadata := [], score := 1/2 } : SearchHit)] (some (7/10)) = []) := by
  constructor
  · rw [(retrieval_threshold_filter _).1]
    norm_num [List.filter]
  · exact (retrieval_threshold_filter _).2.2.2

/-- Helper: the per-entry update of `bumpFreq` always keeps the key. -/
theorem bump_map_entry (w : String) (q : String × Nat) :
    (if q.1 == w then (q.1, q.2 + 1) else q) =
      (q.1, if q.1 == w then q.2 + 1 else q.2) := by
  by_cases h : q.1 == w <;> simp [h]

/-- Helper: every key of the bumped dict is the bumped word or an
existing key. -/
theorem bumpFreq_key_source (m : List (String × Nat)) (w : String) :
    ∀ p ∈ bumpFreq m w, p.1 = w ∨ ∃ n, (p.1, n) ∈ m := by
  intro p hp
  unfold bumpFreq at hp
  split at hp
  · rcases List.mem_map.mp hp with ⟨q, hq, hfq⟩
    rw [bump_map_entry] at hfq
    subst hfq
    exact .inr ⟨q.2, hq⟩
  · rcases List.mem_append.mp hp with h | h
    · exact .inr ⟨p.2, h⟩
    · simp only [List.mem_singleton] at h
      subst h
      exact .inl rfl

/-- Helper: bumping a word turns a dict whose entries record `c` into one
recording `c` with the bumped word incremented, provided an absent word
had count zero. -/
theorem bumpFreq_spec (m : List (String × Nat)) (w : String) (c : String → Nat)
    (h1 : ∀ p ∈ m, p.2 = c p.1)
    (h2 : (¬ ∃ n, (w, n) ∈ m) → c w = 0) :
    ∀ p ∈ bumpFreq m w, p.2 = if p.1 = w then c w + 1 else c p.1 := by
  intro p hp
  unfold bumpFreq at hp
  split at hp
  · rcases List.mem_map.mp hp with ⟨q, hq, hfq⟩
    rw [bump_map_entry] at hfq
    subst hfq
    by_cases hk : q.1 = w
    · have hcq : q.2 = c w := by rw [h1 q hq, hk]
      simp [hk, hcq]
    · have hkb : (q.1 == w) = false := by simpa using hk
      simp [hkb, hk, h1 q hq]
  · rename_i hany
    have hany' : ∀ q ∈ m, ¬ ((q.1 == w) = true) :=
      List.any_eq_false.mp (Bool.eq_false_iff.mpr hany)
    rcases List.mem_append.mp hp with h | h
    · have hne : ¬ p.1 = w := by
        intro hc
        exact hany' p h (by simp [hc])
      rw [if_neg hne]
      exact h1 p h
    · simp only [List.mem_singleton] at h
      subst h
      have hc0 : c w = 0 := by
        apply h2
        rintro ⟨n, hn⟩
        exact hany' (w, n) hn (by simp)
      simp [hc0]

/-- Helper: bumping adds exactly the bumped word to the key set. -/
theorem bumpFreq_key_iff (m : List (String × Nat)) (w w' : String) :
    (∃ n, (w', n) ∈ bumpFreq m w) ↔ ((∃ n, (w', n) ∈ m) ∨ w' = w) := by
  constructor
  · rintro ⟨n, hn⟩
    rcases bumpFreq_key_source m w (w', n) hn with h | h
    · exact .inr h
    · exact .inl h
  · rintro (⟨n, hn⟩ | heq)
    · unfold bumpFreq
      split
      · by_cases hc : (w' == w) = true
        · refine ⟨n + 1, ?_⟩
          have h0 := List.mem_map_of_mem
            (fun p : String × Nat => if p.1 == w then (p.1, p.2 + 1) else p) hn
          simpa [hc] using h0
        · refine ⟨n, ?_⟩
          have h0 := List.mem_map_of_mem
            (fun p : String × Nat => if p.1 == w then (p.1, p.2 + 1) else p) hn
          simpa [hc] using h0
      · exact ⟨n, List.mem_append_left _ hn⟩
    · rw [heq]
      unfold bumpFreq
      split
      · rename_i hany
        rcases List.any_eq_true.mp hany with ⟨q, hq, hqk⟩
        have hqk' : q.1 = w := by simpa using hqk
        refine ⟨q.2 + 1, ?_⟩
        have h0 := List.mem_map_of_mem
          (fun p : String × Nat => if p.1 == w then (p.1, p.2 + 1) else p) hq
        simp only [hqk, if_true] at h0
        rw [hqk'] at h0
        exact h0
      · exact ⟨1, List.mem_append_right _ (List.mem_singleton.mpr rfl)⟩

/-- Helper: the counting loop of `extract_keywords`, run from any
accumulator consistent with already-processed words `pr`, yields a dict
whose every entry is a qualifying word with its exact occurrence count
among qualifying words, and whose key set is exactly the qualifying words
seen. -/
theorem word_freq_fold_spec :
    ∀ (ws pr : List String) (m : List (String × Nat)),
      (∀ p ∈ m, keywordQualifies p.1 = true ∧
        p.2 = (pr.filter keywordQualifies).count p.1) →
      (∀ w', (∃ n, (w', n) ∈ m) ↔ w' ∈ pr.filter keywordQualifies) →
      (∀ p ∈ ws.foldl (fun m w => if keywordQualifies w then bumpFreq m w else m) m,
        keywordQualifies p.1 = true ∧
        p.2 = (((pr ++ ws).filter keywordQualifies)).count p.1) ∧
      (∀ w', (∃ n, (w', n) ∈
          ws.foldl (fun m w => if keywordQualifies w then bumpFreq m w else m) m) ↔
        w' ∈ (pr ++ ws).filter keywordQualifies) := by
  intro ws
  induction ws with
  | nil =>
    intro pr m h1 h2
    constructor
    · intro p hp
      simpa only [List.append_nil] using h1 p hp
    · intro w'
      simpa only [List.append_nil] using h2 w'
  | cons w ws ih =>
    intro pr m h1 h2
    have hsplit : pr ++ w :: ws = (pr ++ [w]) ++ ws := by simp
    by_cases hq : keywordQualifies w = true
    · have hfil : (pr ++ [w]).filter keywordQualifies =
          pr.filter keywordQualifies ++ [w] := by
        simp [List.filter_append, List.filter_cons, hq]
      have h1' : ∀ p ∈ bumpFreq m w, keywordQualifies p.1 = true ∧
          p.2 = ((pr ++ [w]).filter keywordQualifies).count p.1 := by
        intro p hp
        constructor
        · rcases bumpFreq_key_source m w p hp with hk | ⟨n, hn⟩
          · rw [hk]; exact hq
          · exact (h1 (p.1, n) hn).1
        · have hc := bumpFreq_spec m w
            (fun x => (pr.filter keywordQualifies).count x)
            (fun q hq2 => (h1 q hq2).2)
            (fun habs => by
              rw [List.count_eq_zero]
              intro hmem
              exact habs ((h2 w).mpr hmem)) p hp
          rw [hc, hfil]
          by_cases hpw : p.1 = w
          · simp [hpw, List.count_append, List.count_singleton]
          · simp [hpw, List.count_append, List.count_singleton,
              fun hcon : w = p.1 => hpw hcon.symm]
      have h2' : ∀ w', (∃ n, (w', n) ∈ bumpFreq m w) ↔
          w' ∈ (pr ++ [w]).filter keywordQualifies := by
        intro w'
        rw [bumpFreq_key_iff, h2 w', hfil]
        simp
      have := ih (pr ++ [w]) (bumpFreq m w) h1' h2'
      rw [hsplit]
      simpa [List.foldl_cons, hq] using this
    · have hfil : (pr ++ [w]).filter keywordQualifies =
          pr.filter keywordQualifies := by
        simp [List.filter_append, List.filter_cons, hq]
      have h1' : ∀ p ∈ m, keywordQualifies p.1 = true ∧
          p.2 = ((pr ++ [w]).filter keywordQualifies).count p.1 := by
        intro p hp
        rw [hfil]
        exact h1 p hp
      have h2' : ∀ w', (∃ n, (w', n) ∈ m) ↔
          w' ∈ (pr ++ [w]).filter keywordQualifies := by
        intro w'
        rw [hfil]
        exact h2 w'
      have := ih (pr ++ [w]) m h1' h2'
      rw [hsplit]
      simpa [List.foldl_cons, hq] using this

/-- **C8 (refuted as stated).** At the concrete text `"fox fox"` the
word `fox` is alphabetic, three letters long, not a stop word and occurs
twice, so the documented extraction would return `["fox"]` — but
`extract_keywords` returns `[]`, because its counting loop keeps only
words with `len(word) > 3` even though the tokenizer admits length-3
words. -/
theorem extract_keywords_drops_length3 :
    extract_keywords "fox fox" 20 = [] ∧
    keywords_as_claimed "fox fox" 20 = ["fox"] ∧
    extract_keywords "fox fox" 20 ≠ keywords_as_claimed "fox fox" 20 :=
  ⟨by decide, by decide, by decide⟩

/-- **C8 (amended).** `extract_keywords` with the default limit returns
exactly the non-stop-word alphabetic words of length **at least 4**
(`len(word) > 3`) that occur more than once, ordered by descending
frequency and truncated to the top 20: at most 20 results; the selected
(word, count) pairs descend in count; every selected word is a token of
the text, not a stop word, longer than 3 characters, and its recorded
count is its exact occurrence count, greater than 1; and when the
frequency dict fits the truncation limit, every such qualifying word is
selected. -/
theorem keyword_extraction_amended (text : String) :
    (extract_keywords text 20).length ≤ 20 ∧
    List.Pairwise (fun a b => b.2 ≤ a.2) (keywordPairs text 20) ∧
    (∀ p ∈ keywordPairs text 20,
      p.1 ∈ findWords text ∧ stop_words.contains p.1 = false ∧ 3 < p.1.length ∧
      p.2 = (findWords text).count p.1 ∧ 1 < p.2) ∧
    ((word_freq (findWords text)).length ≤ 20 →
      ∀ w ∈ findWords text, keywordQualifies w = true →
        1 < (findWords text).count w → w ∈ extract_keywords text 20) := by
  have master := word_freq_fold_spec (findWords text) [] []
    (by intro p hp; simp at hp) (by intro w'; simp)
  have hfreq1 := master.1
  have hfreq2 := master.2
  simp only [List.nil_append] at hfreq1 hfreq2
  have hcount : ∀ w, keywordQualifies w = true →
      ((findWords text).filter keywordQualifies).count w = (findWords text).count w := by
    intro w hw
    exact List.count_filter hw
  refine ⟨?_, ?_, ?_, ?_⟩
  · calc (extract_keywords text 20).length
        = (keywordPairs text 20).length := by simp [extract_keywords]
      _ ≤ ((List.insertionSort (fun a b => b.2 ≤ a.2)
            (word_freq (findWords text))).take 20).length := by
          exact List.length_filter_le _ _
      _ ≤ 20 := by
          rw [List.length_take]
          exact min_le_left _ _
  · letI : IsTotal (String × Nat) (fun a b => b.2 ≤ a.2) :=
      ⟨fun a b => (le_total b.2 a.2)⟩
    letI : IsTrans (String × Nat) (fun a b => b.2 ≤ a.2) :=
      ⟨fun _ _ _ h1 h2 => le_trans h2 h1⟩
    have hs := List.sorted_insertionSort (fun a b : String × Nat => b.2 ≤ a.2)
      (word_freq (findWords text))
    have hsub : List.Sublist (keywordPairs text 20)
        (List.insertionSort (fun a b => b.2 ≤ a.2) (word_freq (findWords text))) :=
      .trans (List.filter_sublist _) (List.take_sublist _ _)
    exact List.Pairwise.sublist hsub hs
  · intro p hp
    have hmem : p ∈ word_freq (findWords text) := by
      have h1 : p ∈ (List.insertionSort (fun a b => b.2 ≤ a.2)
          (word_freq (findWords text))).take 20 := List.mem_of_mem_filter hp
      have h2 := List.take_subset 20 _ h1
      exact (List.mem_insertionSort _).mp h2
    have hinv := hfreq1 p hmem
    have hq := hinv.1
    have hqparts : stop_words.contains p.1 = false ∧ 3 < p.1.length := by
      have hqq := hq
      unfold keywordQualifies at hqq
      simp only [Bool.and_eq_true, Bool.not_eq_true', decide_eq_true_eq] at hqq
      exact hqq
    have hgt : 1 < p.2 := by
      have := List.mem_filter.mp hp
      simpa using this.2
    have hcnt : p.2 = (findWords text).count p.1 := by
      rw [hinv.2, hcount p.1 hq]
    refine ⟨?_, hqparts.1, hqparts.2, hcnt, hgt⟩
    rw [← List.count_pos_iff, ← hcnt]
    omega
  · intro hlen w hw hq hcnt
    rcases (hfreq2 w).mpr (List.mem_filter.mpr ⟨hw, hq⟩) with ⟨n, hpm⟩
    have hinv := hfreq1 (w, n) hpm
    have hncnt : n = (findWords text).count w := by
      have h2 := hinv.2
      rw [hcount w hq] at h2
      exact h2
    have hsort : (w, n) ∈ List.insertionSort (fun a b => b.2 ≤ a.2)
        (word_freq (findWords text)) := (List.mem_insertionSort _).mpr hpm
    have htake : (w, n) ∈ (List.insertionSort (fun a b => b.2 ≤ a.2)
        (word_freq (findWords text))).take 20 := by
      rw [List.take_of_length_le]
      · exact hsort
      · rw [List.length_insertionSort]
        exact hlen
    have hpair : (w, n) ∈ keywordPairs text 20 := by
      refine List.mem_filter.mpr ⟨htake, ?_⟩
      simp only [decide_eq_true_eq]
      rw [hncnt]
      exact hcnt
    exact List.mem_map_of_mem (fun p => p.1) hpair

/-- Witness for `keyword_extraction_amended`: on a text whose only
repeated qualifying word is `alpha`, the amended completeness conjunct
puts `alpha` in the result. -/
theorem keyword_extraction_amended_witness :
    "alpha" ∈ extract_keywords "alpha beta alpha beta alpha gamma" 20 := by
  have h := (keyword_extraction_amended "alpha beta alpha beta alpha gamma").2.2.2
  exact h (by decide) "alpha" (by decide) (by decide) (by decide)

/-- Helper: `len(text) - start` is a fuel bound for the simple chunking
loop, because every iteration advances `start` by at least one. -/
theorem simple_chunk_loop_sufficient (text : List Char) (cs ov : Nat) :
    ∀ (fuel start idx : Nat) (acc : List PyChunk), text.length - start < fuel →
      ∃ l, simple_chunk_loop text cs ov fuel start idx acc = some l := by
  intro fuel
  induction fuel with
  | zero =>
    intro start idx acc h
    omega
  | succ n ih =>
    intro start idx acc h
    by_cases hs : start < text.length
    · simp only [simple_chunk_loop, hs, if_true]
      apply ih
      omega
    · exact ⟨acc, by simp [simple_chunk_loop, hs]⟩

/-- **C10.** `simple_chunk_text` is total: the loop's start update is
`max(start + 1, end - overlap)`, which strictly increases `start`, so for
every text, every `chunk_size ≥ 1` and every overlap (including
`overlap ≥ chunk_size`) the loop finishes within `len(text) + 1`
iterations and yields a finite chunk list. -/
theorem simple_chunk_text_terminates (text : List Char) (cs ov : Nat)
    (hcs : 1 ≤ cs) :
    (∀ start e : Nat, start < max (start + 1) (e - ov)) ∧
    ∃ l, simple_chunk_text text cs ov = some l := by
  refine ⟨fun start e => lt_of_lt_of_le (Nat.lt_succ_self start) (le_max_left _ _), ?_⟩
  have h0 : 1 ≤ cs := hcs
  exact simple_chunk_loop_sufficient text cs ov (text.length + 1) 0 0 [] (by omega)

/-- Witness for `simple_chunk_text_terminates` on a concrete five
character text with the default 1000/200 parameters. -/
theorem simple_chunk_text_terminates_witness :
    1 ≤ 1000 ∧ ∃ l, simple_chunk_text (List.replicate 5 'x') 1000 200 = some l :=
  ⟨by decide,
    (simple_chunk_text_terminates (List.replicate 5 'x') 1000 200 (by decide)).2⟩

set_option maxRecDepth 100000

/-- **C7 (refuted as stated).** With `chunk_size = 1000` and
`overlap = 200`, the text made of a 150-character paragraph and a
900-character paragraph produces two chunks, and the first 200 characters
of chunk 1 are not the last 200 characters of chunk 0: the accumulated
chunk being closed was not longer than the overlap, so the code starts
the next chunk from the bare paragraph with no seeded overlap (the
reconstruction half of the property fails on other inputs too, sentence
splitting discarding `.`/`!`/`?`). -/
theorem chunk_overlap_counterexample : ¬ overlapPropertyHolds exC7Text 1000 200 := by
  intro hprop
  have hval : chunk_text_intelligently exC7Text 1000 200 =
      [⟨0, List.replicate 150 'a', 150, "paragraph_boundary"⟩,
       ⟨1, List.replicate 900 'b', 900, "final"⟩] := by decide
  have hlen : (chunk_text_intelligently exC7Text 1000 200).length = 2 := by
    rw [hval]
    rfl
  have h1 := hprop 1 (by omega) (by rw [hlen]; exact one_lt_two)
    ⟨1, List.replicate 900 'b', 900, "final"⟩
    ⟨0, List.replicate 150 'a', 150, "paragraph_boundary"⟩
    (by rw [hval]; rfl) (by rw [hval]; rfl)
  have hlen1 := congrArg List.length h1
  simp only [List.length_take, List.length_replicate, takeRightChars,
    List.length_drop] at hlen1
  omega

/-- Helper: taking `overlap` trailing characters of a string at least
that long yields exactly `overlap` characters. -/
theorem takeRightChars_length (ov : Nat) (l : List Char) (h : ov ≤ l.length) :
    (takeRightChars ov l).length = ov := by
  simp only [takeRightChars, List.length_drop]
  omega

/-- Helper: a seeded accumulator starts with exactly the trailing
`overlap` characters of the closed chunk. -/
theorem take_seedTail (ov : Nat) (prev sep next : List Char) (h : ov ≤ prev.length) :
    (seedTail ov prev sep next).take ov = takeRightChars ov prev := by
  unfold seedTail
  rw [List.append_assoc]
  exact List.take_left' (takeRightChars_length ov prev h)

/-- **C7 (amended).** The overlap relation holds at the accumulator
level, and only conditionally: on the paragraph path, when a paragraph
that fits `chunk_size` overflows a non-empty accumulated chunk and
`0 < overlap < len(accumulated)`, the closed chunk is emitted (stripped,
type `"paragraph_boundary"`) and the next accumulated content begins with
exactly the trailing `overlap` characters of the closed content; the
sentence path behaves the same with separator `" "` and type
`"sentence_boundary"`.  When the closed content is not longer than
`overlap` the next chunk starts fresh with no overlap, and the stored
contents are stripped, so the stated chunk-level relation (and lossless
reconstruction) does not hold in general — `chunk_overlap_counterexample`. -/
theorem chunk_overlap_amended :
    (∀ (cs ov : Nat) (st : ChunkState) (para : List Char),
      para.length ≤ cs → cs < st.current_size + para.length →
      st.current_chunk.isEmpty = false → 0 < ov → ov < st.current_chunk.length →
      (paraStep cs ov st para).current_chunk.take ov =
        takeRightChars ov st.current_chunk ∧
      (paraStep cs ov st para).chunks = st.chunks ++
        [⟨st.chunk_index, pyStrip st.current_chunk, st.current_chunk.length,
          "paragraph_boundary"⟩]) ∧
    (∀ (cs ov : Nat) (chunks : List PyChunk) (idx : Nat) (schunk sentence : List Char),
      cs < schunk.length + sentence.length → schunk.isEmpty = false →
      0 < ov → ov < schunk.length →
      (sentStep cs ov (chunks, idx, schunk) sentence).2.2.take ov =
        takeRightChars ov schunk ∧
      (sentStep cs ov (chunks, idx, schunk) sentence).1 = chunks ++
        [⟨idx, pyStrip schunk, schunk.length, "sentence_boundary"⟩]) := by
  constructor
  · intro cs ov st para hfit hover hne hov hlt
    have hbig : ¬ cs < para.length := by omega
    have hne' : ¬ st.current_chunk.isEmpty = true := by rw [hne]; exact Bool.false_ne_true
    have hseed : (0 < ov ∧ ov < st.current_chunk.length) := ⟨hov, hlt⟩
    simp only [paraStep, hbig, if_false, hover, if_true, hne', hseed, and_self]
    exact ⟨take_seedTail ov st.current_chunk ['\n', '\n'] para (le_of_lt hlt), rfl⟩
  · intro cs ov chunks idx schunk sentence hover hne hov hlt
    have hne' : ¬ schunk.isEmpty = true := by rw [hne]; exact Bool.false_ne_true
    have hseed : (0 < ov ∧ ov < schunk.length) := ⟨hov, hlt⟩
    simp only [sentStep, hover, if_true, hne', hseed, and_self]
    exact ⟨take_seedTail ov schunk [' '] sentence (le_of_lt hlt), rfl⟩

/-- Witness for `chunk_overlap_amended`: closing a six-character chunk
with overlap 2 seeds the next chunk with its last two characters. -/
theorem chunk_overlap_amended_witness :
    (paraStep 8 2 ⟨[], 0, ['a', 'b', 'c', 'd', 'e', 'f'], 6⟩
        ['p', 'p', 'p', 'p', 'p']).current_chunk.take 2 =
      takeRightChars 2 ['a', 'b', 'c', 'd', 'e', 'f'] := by
  exact (chunk_overlap_amended.1 8 2 ⟨[], 0, ['a', 'b', 'c', 'd', 'e', 'f'], 6⟩
    ['p', 'p', 'p', 'p', 'p'] (by decide) (by decide) (by decide) (by decide)
    (by decide)).1

/-- **C1 (refuted: the code contradicts the documented logout contract).**
In the concrete post-login state, logging out succeeds, the presented
token is blacklisted and every previously active session of the user is
deactivated — yet the very same token is still accepted (HTTP 200, not
401) by the authentication dependency that every bearer-authenticated
endpoint actually uses, because no route consults the blacklist; only the
unused `get_current_user_with_blacklist_check` would reject it. -/
theorem logout_leaves_token_usable :
    ∃ st1, logout_route aliceState aliceToken 10 = .ok st1 ∧
      is_blacklisted st1 aliceToken = true ∧
      (∀ s ∈ st1.sessions, s.user_id = 1 → s.is_active = false) ∧
      protected_route_auth st1 aliceToken 10 = .ok aliceUser ∧
      get_current_user_with_blacklist_check st1 aliceToken 10 = .error 401 := by
  refine ⟨{ users := [aliceUser],
            sessions := [{ id := 7, user_id := 1, is_active := false }],
            blacklist := [aliceToken] }, ?_, ?_, ?_, ?_, ?_⟩
  · rfl
  · decide
  · decide
  · rfl
  · rfl

end RagSpec
